import Mathlib

/-!
WinCESerialPortEngine: a shallow embedding of `serialportengine_wince.cpp`.

The engine talks to a serial driver through Win32 calls.  The driver is modelled as a
`Device`: the state it keeps (active event mask, configuration block, timeouts, last error),
a log of the calls issued so far, and a table `reply` giving the outcome of the n-th call.
Every method of the engine becomes a function on `Sys` (engine fields, the owner object
`dptr`, the device).  Machine integers are naturals or integers with explicit reduction
modulo a power of two.
-/

namespace WinCE

/-! ## Platform constants (Windows SDK values) -/

/-- Number of values of a 32-bit `DWORD`. -/
def DWORD_SIZE : Nat := 4294967296

/-- Largest `DWORD`. -/
def MAXDWORD : Nat := 4294967295

/-- The sentinel `INVALID_HANDLE_VALUE`, that is `(HANDLE)-1` on a 32-bit platform. -/
def INVALID_HANDLE_VALUE : Nat := 4294967295

def GENERIC_READ : Nat := 0x80000000
def GENERIC_WRITE : Nat := 0x40000000

def EV_RXCHAR : Nat := 0x0001
def EV_TXEMPTY : Nat := 0x0004
def EV_ERR : Nat := 0x0080

def NOPARITY : Nat := 0
def ODDPARITY : Nat := 1
def EVENPARITY : Nat := 2
def MARKPARITY : Nat := 3
def SPACEPARITY : Nat := 4

def ONESTOPBIT : Nat := 0
def ONE5STOPBITS : Nat := 1
def TWOSTOPBITS : Nat := 2

def RTS_CONTROL_DISABLE : Nat := 0
def RTS_CONTROL_HANDSHAKE : Nat := 2

def ERROR_FILE_NOT_FOUND : Nat := 2
def ERROR_ACCESS_DENIED : Nat := 5
def ERROR_INVALID_HANDLE : Nat := 6
def ERROR_INVALID_PARAMETER : Nat := 87

/-- Conversion of a signed integer to a `DWORD` (two-complement wrap-around). -/
def toDWORD (x : Int) : Nat := (x % 4294967296).toNat

/-- Conversion of a signed integer to a `BYTE` (two-complement wrap-around). -/
def toBYTE (x : Int) : Nat := (x % 256).toNat

/-- Conversion of an unsigned 32-bit value to `qint32`. -/
def toQint32 (n : Nat) : Int :=
  if n % 4294967296 < 2147483648 then ((n % 4294967296 : Nat) : Int)
  else ((n % 4294967296 : Nat) : Int) - 4294967296

/-- Bitwise complement of a `DWORD`. -/
def notDWORD (m : Nat) : Nat := 4294967295 ^^^ (m % 4294967296)

/-! ## Enumerations of the public `SerialPort` class -/

inductive Directions where
  | Input
  | Output
  | AllDirections
  deriving DecidableEq, Repr

inductive DataBits where
  | Data5
  | Data6
  | Data7
  | Data8
  | UnknownDataBits
  deriving DecidableEq, Repr

/-- Modelled from the spec: the numeric values of the `SerialPort::DataBits` enumerators,
declared in `serialport.h`, which is not among the sources.  The spec gives data bits as the
numbers 5 to 8; the unknown value is -1. -/
def DataBits.toInt : DataBits → Int
  | .Data5 => 5
  | .Data6 => 6
  | .Data7 => 7
  | .Data8 => 8
  | .UnknownDataBits => -1

inductive Parity where
  | NoParity
  | EvenParity
  | OddParity
  | SpaceParity
  | MarkParity
  | UnknownParity
  deriving DecidableEq, Repr

inductive StopBits where
  | OneStop
  | OneAndHalfStop
  | TwoStop
  | UnknownStopBits
  deriving DecidableEq, Repr

inductive FlowControl where
  | NoFlowControl
  | HardwareControl
  | SoftwareControl
  | UnknownFlowControl
  deriving DecidableEq, Repr

inductive DataErrorPolicy where
  | SkipPolicy
  | PassZeroPolicy
  | IgnorePolicy
  | StopReceivingPolicy
  | UnknownPolicy
  deriving DecidableEq, Repr

inductive PortError where
  | NoError
  | NoSuchDeviceError
  | PermissionDeniedError
  | DeviceIsNotOpenedError
  | ParityError
  | FramingError
  | BreakConditionError
  | UnsupportedPortOperationError
  | UnknownPortError
  deriving DecidableEq, Repr

/-! ## Device structures -/

/-- The fields of the Win32 `DCB` that the engine reads or writes. -/
structure DCB where
  BaudRate : Nat
  fBinary : Bool
  fParity : Bool
  fOutxCtsFlow : Bool
  fOutX : Bool
  fInX : Bool
  fErrorChar : Bool
  fNull : Bool
  fRtsControl : Nat
  fAbortOnError : Bool
  ByteSize : Nat
  Parity : Nat
  StopBits : Nat
  deriving DecidableEq, Repr

/-- The Win32 `COMMTIMEOUTS` block. -/
structure COMMTIMEOUTS where
  ReadIntervalTimeout : Nat
  ReadTotalTimeoutMultiplier : Nat
  ReadTotalTimeoutConstant : Nat
  WriteTotalTimeoutMultiplier : Nat
  WriteTotalTimeoutConstant : Nat
  deriving DecidableEq, Repr

/-- The Win32 calls (and watchdog operations) the engine issues. -/
inductive Call where
  | CreateFile (location : String) (desiredAccess shareMode flagsAndAttributes : Nat)
  | CloseHandle (handle : Nat)
  | GetCommState
  | SetCommState (dcb : DCB)
  | GetCommTimeouts
  | SetCommTimeouts (t : COMMTIMEOUTS)
  | GetCommMask
  | SetCommMask (mask : Nat)
  | WaitCommEvent
  | ClearCommError
  | ReadFile (len : Nat)
  | WriteFile (bytes : List Nat)
  | BreakerStart (timeout : Nat)
  | BreakerStop
  deriving DecidableEq, Repr

/-- Outcome of one call on the driver.  `ok` is the success flag, `err` the code left for
`GetLastError` when the call fails, `val` the numeric output (handle, queue length, event
bits, accepted byte count), `bytes` the bytes the driver has ready for a read.  The last two
fields concern the watchdog-guarded wait only: `worked` tells whether the watchdog fired and
`mask` is the active event mask the forced interruption left behind (`none`: untouched). -/
structure Reply where
  ok : Bool
  err : Nat
  val : Nat
  bytes : List Nat
  worked : Bool
  mask : Option Nat

/-- The serial driver as seen through the handle. -/
structure Device where
  mask : Nat
  dcb : DCB
  timeouts : COMMTIMEOUTS
  lastError : Nat
  reply : Nat → Reply
  log : List Call

/-- The reply the driver gives to the next call. -/
def Device.next (dev : Device) : Reply := dev.reply dev.log.length

/-- Record a call in the log. -/
def Device.logged (dev : Device) (c : Call) : Device :=
  { dev with log := dev.log ++ [c] }

/-- Record a failed call: the log grows and the last-error code is set. -/
def Device.failed (dev : Device) (c : Call) : Device :=
  { dev with log := dev.log ++ [c], lastError := dev.next.err }

/-- Win32 call `::SetCommMask`: on success the active mask becomes `m`; a failed write leaves it. -/
def SetCommMask (dev : Device) (m : Nat) : Bool × Device :=
  if dev.next.ok then (true, { dev with mask := m, log := dev.log ++ [Call.SetCommMask m] })
  else (false, dev.failed (Call.SetCommMask m))

/-- Win32 call `::GetCommMask`: on success yields the active mask. -/
def GetCommMask (dev : Device) : Option Nat × Device :=
  if dev.next.ok then (some dev.mask, dev.logged Call.GetCommMask)
  else (none, dev.failed Call.GetCommMask)

/-- Win32 call `::SetCommState`: on success the driver holds the block `dcb`. -/
def SetCommState (dev : Device) (dcb : DCB) : Bool × Device :=
  if dev.next.ok then (true, { dev with dcb := dcb, log := dev.log ++ [Call.SetCommState dcb] })
  else (false, dev.failed (Call.SetCommState dcb))

/-- Win32 call `::GetCommState`: on success yields the block the driver holds. -/
def GetCommState (dev : Device) : Option DCB × Device :=
  if dev.next.ok then (some dev.dcb, dev.logged Call.GetCommState)
  else (none, dev.failed Call.GetCommState)

/-- Win32 call `::SetCommTimeouts`. -/
def SetCommTimeouts (dev : Device) (t : COMMTIMEOUTS) : Bool × Device :=
  if dev.next.ok then
    (true, { dev with timeouts := t, log := dev.log ++ [Call.SetCommTimeouts t] })
  else (false, dev.failed (Call.SetCommTimeouts t))

/-- Win32 call `::GetCommTimeouts`. -/
def GetCommTimeouts (dev : Device) : Option COMMTIMEOUTS × Device :=
  if dev.next.ok then (some dev.timeouts, dev.logged Call.GetCommTimeouts)
  else (none, dev.failed Call.GetCommTimeouts)

/-! ## Engine and owner state -/

/-- The `options` structure of the owner object. -/
structure Options where
  inputRate : Int
  outputRate : Int
  dataBits : DataBits
  parity : Parity
  stopBits : StopBits
  flow : FlowControl
  policy : DataErrorPolicy
  restoreSettingsOnClose : Bool
  deriving DecidableEq, Repr

/-- Notifications delivered to the owner object. -/
inductive Notification where
  | canErrorNotification
  | canReadNotification
  | canWriteNotification
  deriving DecidableEq, Repr

/-- The owner object `dptr` (class `SerialPortPrivate`): options, error slot and the
notifications it has received, oldest first. -/
structure SerialPortPrivate where
  options : Options
  error : PortError
  notifications : List Notification
  deriving DecidableEq, Repr

/-- The member variables of `WinCESerialPortEngine`; `threadRunning` is the state of the
underlying `QThread` (what `isRunning()` returns). -/
structure Engine where
  m_descriptor : Nat
  m_flagErrorFromCommEvent : Bool
  m_currentMask : Nat
  m_desiredMask : Nat
  m_running : Bool
  threadRunning : Bool
  m_currentDcb : DCB
  m_restoredDcb : DCB
  m_currentCommTimeouts : COMMTIMEOUTS
  m_restoredCommTimeouts : COMMTIMEOUTS
  deriving DecidableEq, Repr

/-- Engine, owner and device together. -/
structure Sys where
  e : Engine
  d : SerialPortPrivate
  dev : Device

/-- Call `dptr->setError(err)`. -/
def Sys.setError (s : Sys) (err : PortError) : Sys :=
  { s with d := { s.d with error := err } }

/-- Method `WinCESerialPortEngine::decodeSystemError`, reading `::GetLastError()`. -/
def decodeSystemError (dev : Device) : PortError :=
  if dev.lastError = ERROR_FILE_NOT_FOUND then PortError.NoSuchDeviceError
  else if dev.lastError = ERROR_ACCESS_DENIED then PortError.PermissionDeniedError
  else if dev.lastError = ERROR_INVALID_HANDLE then PortError.DeviceIsNotOpenedError
  else if dev.lastError = ERROR_INVALID_PARAMETER then PortError.UnsupportedPortOperationError
  else PortError.UnknownPortError

/-- Method `WinCESerialPortEngine::updateDcb`: clear the active event mask, then apply the
current block; on rejection record the translated error and fail. -/
def updateDcb (s : Sys) : Bool × Sys :=
  let dev1 := (SetCommMask s.dev 0).2
  let r := SetCommState dev1 s.e.m_currentDcb
  if r.1 = false then
    (false, ({ s with dev := r.2 } : Sys).setError (decodeSystemError r.2))
  else (true, { s with dev := r.2 })

/-- Method `WinCESerialPortEngine::updateCommTimeouts`. -/
def updateCommTimeouts (s : Sys) : Bool × Sys :=
  let r := SetCommTimeouts s.dev s.e.m_currentCommTimeouts
  if r.1 = false then
    (false, ({ s with dev := r.2 } : Sys).setError (decodeSystemError r.2))
  else (true, { s with dev := r.2 })

/-- Replace the current configuration block of the engine. -/
def Sys.withDcb (s : Sys) (dcb : DCB) : Sys :=
  { s with e := { s.e with m_currentDcb := dcb } }

/-- Method `WinCESerialPortEngine::setRate`. -/
def setRate (s : Sys) (rate : Int) (dir : Directions) : Bool × Sys :=
  if dir ≠ Directions.AllDirections then
    (false, s.setError PortError.UnsupportedPortOperationError)
  else
    updateDcb (s.withDcb { s.e.m_currentDcb with BaudRate := toDWORD rate })

/-- Method `WinCESerialPortEngine::setDataBits`. -/
def setDataBits (s : Sys) (dataBits : DataBits) : Bool × Sys :=
  updateDcb (s.withDcb { s.e.m_currentDcb with ByteSize := toBYTE dataBits.toInt })

/-- Method `WinCESerialPortEngine::setParity`. -/
def setParity (s : Sys) (parity : Parity) : Bool × Sys :=
  let dcb := { s.e.m_currentDcb with fParity := true }
  let dcb :=
    match parity with
    | .NoParity => { dcb with Parity := NOPARITY, fParity := false }
    | .OddParity => { dcb with Parity := ODDPARITY }
    | .EvenParity => { dcb with Parity := EVENPARITY }
    | .MarkParity => { dcb with Parity := MARKPARITY }
    | .SpaceParity => { dcb with Parity := SPACEPARITY }
    | _ => { dcb with Parity := NOPARITY, fParity := false }
  updateDcb (s.withDcb dcb)

/-- Method `WinCESerialPortEngine::setStopBits`. -/
def setStopBits (s : Sys) (stopBits : StopBits) : Bool × Sys :=
  let dcb :=
    match stopBits with
    | .OneStop => { s.e.m_currentDcb with StopBits := ONESTOPBIT }
    | .OneAndHalfStop => { s.e.m_currentDcb with StopBits := ONE5STOPBITS }
    | .TwoStop => { s.e.m_currentDcb with StopBits := TWOSTOPBITS }
    | _ => { s.e.m_currentDcb with StopBits := ONESTOPBIT }
  updateDcb (s.withDcb dcb)

/-- Method `WinCESerialPortEngine::setFlowControl`. -/
def setFlowControl (s : Sys) (flow : FlowControl) : Bool × Sys :=
  let dcb := { s.e.m_currentDcb with
    fInX := false, fOutX := false, fOutxCtsFlow := false, fRtsControl := RTS_CONTROL_DISABLE }
  let dcb :=
    match flow with
    | .NoFlowControl => dcb
    | .SoftwareControl => { dcb with fInX := true, fOutX := true }
    | .HardwareControl => { dcb with fOutxCtsFlow := true, fRtsControl := RTS_CONTROL_HANDSHAKE }
    | _ => dcb
  updateDcb (s.withDcb dcb)

/-- The data-bits branch of `detectDefaultSettings`. -/
def detectDataBits (dcb : DCB) : DataBits :=
  if dcb.ByteSize = 5 then DataBits.Data5
  else if dcb.ByteSize = 6 then DataBits.Data6
  else if dcb.ByteSize = 7 then DataBits.Data7
  else if dcb.ByteSize = 8 then DataBits.Data8
  else DataBits.UnknownDataBits

/-- The parity branch of `detectDefaultSettings`. -/
def detectParity (dcb : DCB) : Parity :=
  if dcb.Parity = NOPARITY ∧ dcb.fParity = false then Parity.NoParity
  else if dcb.Parity = SPACEPARITY ∧ dcb.fParity = true then Parity.SpaceParity
  else if dcb.Parity = MARKPARITY ∧ dcb.fParity = true then Parity.MarkParity
  else if dcb.Parity = EVENPARITY ∧ dcb.fParity = true then Parity.EvenParity
  else if dcb.Parity = ODDPARITY ∧ dcb.fParity = true then Parity.OddParity
  else Parity.UnknownParity

/-- The stop-bits branch of `detectDefaultSettings`. -/
def detectStopBits (dcb : DCB) : StopBits :=
  if dcb.StopBits = ONESTOPBIT then StopBits.OneStop
  else if dcb.StopBits = ONE5STOPBITS then StopBits.OneAndHalfStop
  else if dcb.StopBits = TWOSTOPBITS then StopBits.TwoStop
  else StopBits.UnknownStopBits

/-- The flow-control branch of `detectDefaultSettings`. -/
def detectFlow (dcb : DCB) : FlowControl :=
  if dcb.fOutxCtsFlow = false ∧ dcb.fRtsControl = RTS_CONTROL_DISABLE
      ∧ dcb.fInX = false ∧ dcb.fOutX = false then FlowControl.NoFlowControl
  else if dcb.fOutxCtsFlow = false ∧ dcb.fRtsControl = RTS_CONTROL_DISABLE
      ∧ dcb.fInX = true ∧ dcb.fOutX = true then FlowControl.SoftwareControl
  else if dcb.fOutxCtsFlow = true ∧ dcb.fRtsControl = RTS_CONTROL_HANDSHAKE
      ∧ dcb.fInX = false ∧ dcb.fOutX = false then FlowControl.HardwareControl
  else FlowControl.UnknownFlowControl

/-- Method `WinCESerialPortEngine::detectDefaultSettings`: derive the advertised options from the
current configuration block. -/
def detectDefaultSettings (s : Sys) : Sys :=
  let dcb := s.e.m_currentDcb
  let inputRate := toQint32 dcb.BaudRate
  { s with d := { s.d with options := { s.d.options with
      inputRate := inputRate
      outputRate := inputRate
      dataBits := detectDataBits dcb
      parity := detectParity dcb
      stopBits := detectStopBits dcb
      flow := detectFlow dcb } } }

/-- The five setters called in sequence, each one required to succeed. -/
def applyAll (s : Sys) (r : Int) (b : DataBits) (p : Parity) (sb : StopBits)
    (f : FlowControl) : Option Sys :=
  let s1 := setRate s r Directions.AllDirections
  if s1.1 = false then none else
  let s2 := setDataBits s1.2 b
  if s2.1 = false then none else
  let s3 := setParity s2.2 p
  if s3.1 = false then none else
  let s4 := setStopBits s3.2 sb
  if s4.1 = false then none else
  let s5 := setFlowControl s4.2 f
  if s5.1 = false then none else some s5.2

/-! ## Notification masks -/

/-- Method `WinCESerialPortEngine::isNotificationEnabled`. -/
def isNotificationEnabled (s : Sys) (mask : Nat) : Bool :=
  s.e.threadRunning && decide (s.e.m_desiredMask &&& mask ≠ 0)

/-- Method `WinCESerialPortEngine::setNotificationEnabled`: query the active mask into
`m_currentMask`, set or clear the bits of `mask` in `m_desiredMask`, push the desired mask to
the device, and start the waiter thread when a category is enabled and it is not running. -/
def setNotificationEnabled (s : Sys) (enable : Bool) (mask : Nat) : Sys :=
  let g := GetCommMask s.dev
  let current :=
    match g.1 with
    | some m => m
    | none => s.e.m_currentMask
  let desired :=
    if enable then s.e.m_desiredMask ||| mask
    else s.e.m_desiredMask &&& notDWORD mask
  let w := SetCommMask g.2 desired
  let started := if enable = true ∧ s.e.threadRunning = false then true else s.e.threadRunning
  { s with
    dev := w.2
    e := { s.e with m_currentMask := current, m_desiredMask := desired,
                    threadRunning := started } }

/-- Win32 call `::ClearCommError(h, 0, &cs)`: on success yields `cs.cbInQue`. -/
def ClearCommError (dev : Device) : Option Nat × Device :=
  if dev.next.ok then (some (dev.next.val % DWORD_SIZE), dev.logged Call.ClearCommError)
  else (none, dev.failed Call.ClearCommError)

/-- Method `WinCESerialPortEngine::bytesAvailable`: the input queue length, or -1 when the query
fails. -/
def bytesAvailable (dev : Device) : Int × Device :=
  match (ClearCommError dev).1 with
  | some n => ((n : Int), (ClearCommError dev).2)
  | none => (-1, (ClearCommError dev).2)

/-- Win32 call `::ReadFile(h, data, len, &readBytes, 0)`: on success the driver stores at most `len` of
the bytes it has ready at the start of the buffer `data` and yields their number together
with the buffer. -/
def ReadFile (dev : Device) (data : List Nat) (len : Nat) : Option (Nat × List Nat) × Device :=
  if dev.next.ok then
    let got := dev.next.bytes.take len
    (some (got.length, got ++ data.drop got.length), dev.logged (Call.ReadFile len))
  else (none, dev.failed (Call.ReadFile len))

/-- Result of `read`: the returned count, the buffer afterwards, the state afterwards. -/
structure ReadResult where
  ret : Int
  data : List Nat
  sys : Sys

/-- Method `WinCESerialPortEngine::read`.  The assignment `*data = 0` stores a zero in the first
cell of the buffer. -/
def read (s : Sys) (data : List Nat) (len : Int) : ReadResult :=
  let len1 : Int := if s.d.options.policy ≠ DataErrorPolicy.IgnorePolicy then 1 else len
  let r := ReadFile s.dev data (toDWORD len1)
  match r.1 with
  | none => { ret := -1, data := data, sys := { s with dev := r.2 } }
  | some (readBytes, data1) =>
    if s.e.m_flagErrorFromCommEvent then
      let s2 : Sys := { s with dev := r.2, e := { s.e with m_flagErrorFromCommEvent := false } }
      match s.d.options.policy with
      | .SkipPolicy => { ret := 0, data := data1, sys := s2 }
      | .PassZeroPolicy => { ret := (readBytes : Int), data := 0 :: data1.tail, sys := s2 }
      | _ => { ret := (readBytes : Int), data := data1, sys := s2 }
    else { ret := (readBytes : Int), data := data1, sys := { s with dev := r.2 } }

/-! ## Readiness poll -/

/-- Win32 call `::WaitCommEvent(h, &mask, 0)`: yields the success flag and the event bits left in the
output mask. -/
def WaitCommEvent (dev : Device) : (Bool × Nat) × Device :=
  if dev.next.ok then ((true, dev.next.val % DWORD_SIZE), dev.logged Call.WaitCommEvent)
  else ((false, dev.next.val % DWORD_SIZE), dev.failed Call.WaitCommEvent)

/-- Modelled from the spec: construction of the watchdog `WinCeWaitCommEventBreaker`
(declared in `serialportengine_wince_p.h`, which is not among the sources), armed with a
timeout right before the blocking wait. -/
def breakerStart (dev : Device) (timeout : Nat) : Device :=
  dev.logged (Call.BreakerStart timeout)

/-- Modelled from the spec: `breaker.stop()` followed by `breaker.isWorked()`.  If the timer
fired first the watchdog forcibly signalled the device to abandon the pending wait and
records that it did the work.  How it signals is not specified, so a fired watchdog may leave
any active event mask behind (`none`: the mask is untouched). -/
def breakerStop (dev : Device) : Bool × Device :=
  if dev.next.worked then
    (true, { dev with mask := dev.next.mask.getD dev.mask, log := dev.log ++ [Call.BreakerStop] })
  else (false, dev.logged Call.BreakerStop)

/-- Result of `select`: the returned flag, the values written through `selectForRead` and
`selectForWrite` (`none`: the pointer was not written), and the state afterwards. -/
structure SelectResult where
  ret : Bool
  selectForRead : Option Bool
  selectForWrite : Option Bool
  sys : Sys

/-- The forward check opening `select`: `checkRead && (bytesAvailable() > 0)`. -/
def selectFastPath (s : Sys) (checkRead : Bool) : Bool :=
  checkRead && decide ((bytesAvailable s.dev).1 > 0)

/-- The device after the forward check: the queue is queried only when `checkRead` is set. -/
def selectEntry (s : Sys) (checkRead : Bool) : Device :=
  if checkRead then (bytesAvailable s.dev).2 else s.dev

/-- The mask `select` builds from its flags: `EV_RXCHAR` if `checkRead`, `EV_TXEMPTY` if
`checkWrite`. -/
def requestedMask (checkRead checkWrite : Bool) : Nat :=
  (if checkRead then EV_RXCHAR else 0) ||| (if checkWrite then EV_TXEMPTY else 0)

/-- The part of `select` before the wait: build the requested mask, save the active mask,
and extend the active mask when a requested bit is missing.  Yields the saved mask, or `none`
when the query or the extending write fails. -/
def selectPrepare (dev : Device) (checkRead checkWrite : Bool) : Option Nat × Device :=
  let currEventMask : Nat := requestedMask checkRead checkWrite
  let g := GetCommMask dev
  match g.1 with
  | none => (none, g.2)
  | some oldEventMask =>
    if currEventMask ≠ (oldEventMask &&& currEventMask) then
      let w := SetCommMask g.2 (currEventMask ||| oldEventMask)
      if w.1 = false then (none, w.2) else (some oldEventMask, w.2)
    else (some oldEventMask, g.2)

/-- The guarded wait of `select`: arm the watchdog with `qMax(timeout, 0)`, wait, stop the
watchdog.  Yields the event bits left in `currEventMask` and `breaker.isWorked()`. -/
def selectWait (dev : Device) (timeout : Int) : (Nat × Bool) × Device :=
  let dev1 := breakerStart dev (max timeout 0).toNat
  let w := WaitCommEvent dev1
  let b := breakerStop w.2
  ((w.1.2, b.1), b.2)

/-- The part of `select` after the wait: on a genuine wake compute the requested flags; the
queue is queried again only when the read bit is among the event bits. -/
def selectFlags (dev : Device) (checkRead checkWrite : Bool) (currEventMask : Nat)
    (sucessResult : Bool) : (Option Bool × Option Bool) × Device :=
  let rxBit : Bool := decide (currEventMask &&& EV_RXCHAR ≠ 0)
  let dev1 := if sucessResult && checkRead && rxBit then (bytesAvailable dev).2 else dev
  let forRead : Option Bool :=
    if sucessResult && checkRead then some (rxBit && decide ((bytesAvailable dev).1 > 0))
    else none
  let forWrite : Option Bool :=
    if sucessResult && checkWrite then some (decide (currEventMask &&& EV_TXEMPTY ≠ 0))
    else none
  ((forRead, forWrite), dev1)

/-- Method `WinCESerialPortEngine::select`.  The result of the closing `::SetCommMask`, which
writes the saved mask back, is not looked at. -/
def select (s : Sys) (timeout : Int) (checkRead checkWrite : Bool) : SelectResult :=
  if selectFastPath s checkRead then
    { ret := true, selectForRead := some true, selectForWrite := none,
      sys := { s with dev := (bytesAvailable s.dev).2 } }
  else
    let p := selectPrepare (selectEntry s checkRead) checkRead checkWrite
    match p.1 with
    | none => { ret := false, selectForRead := none, selectForWrite := none,
                sys := { s with dev := p.2 } }
    | some oldEventMask =>
      let w := selectWait p.2 timeout
      let sucessResult := !w.1.2
      let f := selectFlags w.2 checkRead checkWrite w.1.1 sucessResult
      { ret := sucessResult, selectForRead := f.1.1, selectForWrite := f.1.2,
        sys := { s with dev := (SetCommMask f.2 oldEventMask).2 } }

/-- The saved mask and the device at the closing mask write of `select`, or `none` when
`select` returns before reaching it (forward check satisfied, or a failure before the
wait). -/
def selectRestorePoint (s : Sys) (timeout : Int) (checkRead checkWrite : Bool) :
    Option (Nat × Device) :=
  if selectFastPath s checkRead then none
  else
    let p := selectPrepare (selectEntry s checkRead) checkRead checkWrite
    match p.1 with
    | none => none
    | some oldEventMask =>
      let w := selectWait p.2 timeout
      some (oldEventMask, (selectFlags w.2 checkRead checkWrite w.1.1 (!w.1.2)).2)

/-! ## Open and close -/

/-- Qt value of `QIODevice::ReadOnly`. -/
def ReadOnly : Nat := 1

/-- Qt value of `QIODevice::WriteOnly`. -/
def WriteOnly : Nat := 2

/-- The access flags `open` requests for an open mode. -/
def desiredAccessOf (mode : Nat) : Nat :=
  (if mode &&& ReadOnly ≠ 0 then GENERIC_READ else 0)
    ||| (if mode &&& WriteOnly ≠ 0 then GENERIC_WRITE else 0)

/-- Win32 call `::CreateFile`: yields a handle; failure is the sentinel `INVALID_HANDLE_VALUE`. -/
def CreateFile (dev : Device) (location : String)
    (desiredAccess shareMode flagsAndAttributes : Nat) : Nat × Device :=
  let c := Call.CreateFile location desiredAccess shareMode flagsAndAttributes
  if dev.next.ok then (dev.next.val % DWORD_SIZE, dev.logged c)
  else (INVALID_HANDLE_VALUE, dev.failed c)

/-- Win32 call `::CloseHandle`. -/
def CloseHandle (dev : Device) (handle : Nat) : Bool × Device :=
  if dev.next.ok then (true, dev.logged (Call.CloseHandle handle))
  else (false, dev.failed (Call.CloseHandle handle))

/-- The settings `open` forces on top of the block read from the device. -/
def openDcb (dcb : DCB) : DCB :=
  { dcb with fBinary := true, fInX := false, fOutX := false, fAbortOnError := false,
             fNull := false, fErrorChar := false }

/-- The timeouts `open` installs: all zero except `ReadIntervalTimeout = MAXDWORD`. -/
def openTimeouts : COMMTIMEOUTS :=
  { ReadIntervalTimeout := MAXDWORD, ReadTotalTimeoutMultiplier := 0,
    ReadTotalTimeoutConstant := 0, WriteTotalTimeoutMultiplier := 0,
    WriteTotalTimeoutConstant := 0 }

/-- Method `WinCESerialPortEngine::open`. -/
def open_ (s : Sys) (location : String) (mode : Nat) : Bool × Sys :=
  let c := CreateFile s.dev location (desiredAccessOf mode) 0 0
  let s1 : Sys := { s with dev := c.2, e := { s.e with m_descriptor := c.1 } }
  if c.1 = INVALID_HANDLE_VALUE then (false, s1.setError (decodeSystemError c.2))
  else
    let g := GetCommState s1.dev
    match g.1 with
    | none => (false, ({ s1 with dev := g.2 } : Sys).setError (decodeSystemError g.2))
    | some dcb =>
      let s2 : Sys := { s1 with
        dev := g.2
        e := { s1.e with m_restoredDcb := dcb, m_currentDcb := openDcb dcb } }
      let u := updateDcb s2
      if u.1 = false then (false, u.2)
      else
        let t := GetCommTimeouts u.2.dev
        match t.1 with
        | none => (false, ({ u.2 with dev := t.2 } : Sys).setError (decodeSystemError t.2))
        | some timeouts =>
          let s3 : Sys := { u.2 with
            dev := t.2
            e := { u.2.e with m_restoredCommTimeouts := timeouts,
                              m_currentCommTimeouts := openTimeouts } }
          let v := updateCommTimeouts s3
          if v.1 = false then (false, v.2)
          else (true, detectDefaultSettings v.2)

/-- Method `WinCESerialPortEngine::close`. -/
def close (s : Sys) : Sys :=
  let dev1 :=
    if s.d.options.restoreSettingsOnClose then
      (SetCommTimeouts (SetCommState s.dev s.e.m_restoredDcb).2 s.e.m_restoredCommTimeouts).2
    else s.dev
  { s with
    dev := (CloseHandle dev1 s.e.m_descriptor).2
    e := { s.e with m_descriptor := INVALID_HANDLE_VALUE } }

/-! ## Waiter loop -/

/-- Modelled from the spec: the callbacks `canErrorNotification`, `canReadNotification` and
`canWriteNotification` of the owner (class `SerialPortPrivate`, whose code is not among the
sources).  The engine invokes them; the invocation is recorded, oldest first. -/
def Sys.notify (s : Sys) (n : Notification) : Sys :=
  { s with d := { s.d with notifications := s.d.notifications ++ [n] } }

/-- One pass through the body of the loop of `WinCESerialPortEngine::run`: push the desired
mask to the device, wait for an event into `m_currentMask`, and after a successful wait test
the error, read and write bits of `m_currentMask & m_desiredMask` in that order, invoking
the callback of each bit that is set. -/
def runIteration (s : Sys) : Sys :=
  let dev1 := (SetCommMask s.dev s.e.m_desiredMask).2
  let w := WaitCommEvent dev1
  let s1 : Sys := { s with dev := w.2, e := { s.e with m_currentMask := w.1.2 } }
  if w.1.1 then
    let s2 :=
      if EV_ERR &&& s1.e.m_currentMask &&& s1.e.m_desiredMask ≠ 0 then
        s1.notify Notification.canErrorNotification
      else s1
    let s3 :=
      if EV_RXCHAR &&& s2.e.m_currentMask &&& s2.e.m_desiredMask ≠ 0 then
        s2.notify Notification.canReadNotification
      else s2
    if EV_TXEMPTY &&& s3.e.m_currentMask &&& s3.e.m_desiredMask ≠ 0 then
      s3.notify Notification.canWriteNotification
    else s3
  else s1

/-- The loop of `WinCESerialPortEngine::run`, bounded by a number of passes: it goes on
while `m_running` is set. -/
def run : Nat → Sys → Sys
  | 0, s => s
  | n + 1, s => if s.e.m_running then run n (runIteration s) else s

/-- The event bit of a notification category. -/
def Notification.bit : Notification → Nat
  | .canErrorNotification => EV_ERR
  | .canReadNotification => EV_RXCHAR
  | .canWriteNotification => EV_TXEMPTY

/-- The dispatch of one wake in the words of the spec: the categories whose bit is set in
(current mask AND desired mask), in the order error, read, write. -/
def dispatchOrder (current desired : Nat) : List Notification :=
  [Notification.canErrorNotification, Notification.canReadNotification,
    Notification.canWriteNotification].filter
    (fun n => decide (n.bit &&& (current &&& desired) ≠ 0))

/-! ## Port names -/

/-- The constant `defaultPathPostfix`, the one-character string made of a colon.  Strings
(`QString`) are lists of characters. -/
def defaultPathPostfix : List Char := [':']

/-- Qt `QString::contains(str)`: `str` occurs at some position of the string. -/
def qContains : List Char → List Char → Bool
  | [], str => str.isPrefixOf []
  | c :: cs, str => str.isPrefixOf (c :: cs) || qContains cs str

/-- Qt `QString::remove(str)`, scanning from the left: at an occurrence of `str` its
characters are dropped (`skip` counts those still to drop), otherwise the character is
kept. -/
def qRemoveFrom (str : List Char) : Nat → List Char → List Char
  | _, [] => []
  | skip + 1, _ :: cs => qRemoveFrom str skip cs
  | 0, c :: cs =>
    if str ≠ [] ∧ str.isPrefixOf (c :: cs) = true then qRemoveFrom str (str.length - 1) cs
    else c :: qRemoveFrom str 0 cs

/-- Qt `QString::remove(str)`: every occurrence of `str` is removed. -/
def qRemove (s str : List Char) : List Char := qRemoveFrom str 0 s

/-- Function `SerialPortPrivate::portNameToSystemLocation`. -/
def portNameToSystemLocation (port : List Char) : List Char :=
  if qContains port defaultPathPostfix = false then port ++ defaultPathPostfix else port

/-- Function `SerialPortPrivate::portNameFromSystemLocation`. -/
def portNameFromSystemLocation (location : List Char) : List Char :=
  if qContains location defaultPathPostfix then qRemove location defaultPathPostfix
  else location

/-! ## Standard rates -/

/-- The array `standardRatesTable` with every `CBR_` macro defined, at the Windows SDK values
of the macros (`winbase.h`). -/
def standardRatesTable : List Int :=
  [110, 300, 600, 1200, 2400, 4800, 9600, 14400, 19200, 38400, 56000, 57600, 115200, 128000,
    256000]

/-- Qt `qFind(begin, end, value)` on a table: the position of the first element equal to
`value`, or the length of the table (the end position) when there is none. -/
def qFind : List Int → Int → Nat
  | [], _ => 0
  | a :: rest, value => if a = value then 0 else qFind rest value + 1

/-- Qt `qLowerBound`, the loop of `qBinaryFind`: `n` positions starting at `begin` are
left to search; each pass halves `n`. -/
def qLowerBound (table : List Int) (value : Int) (begin n : Nat) : Nat :=
  if 0 < n then
    if table.getD (begin + n / 2) 0 < value then
      qLowerBound table value (begin + n / 2 + 1) (n - (n / 2 + 1))
    else qLowerBound table value begin (n / 2)
  else begin
termination_by n
decreasing_by
  all_goals simp_wf
  all_goals omega

/-- Qt `qBinaryFind(begin, end, value)` on a table: the lower bound of `value` when the
element there is not greater than `value`, otherwise the end position. -/
def qBinaryFind (table : List Int) (value : Int) : Nat :=
  if qLowerBound table value 0 table.length = table.length
      ∨ value < table.getD (qLowerBound table value 0 table.length) 0 then table.length
  else qLowerBound table value 0 table.length

/-- Function `SerialPortPrivate::rateFromSetting`: linear search, 0 when not found. -/
def rateFromSetting (setting : Int) : Int :=
  if qFind standardRatesTable setting ≠ standardRatesTable.length then
    standardRatesTable.getD (qFind standardRatesTable setting) 0
  else 0

/-- Function `SerialPortPrivate::settingFromRate`: binary search, 0 when not found. -/
def settingFromRate (rate : Int) : Int :=
  if qBinaryFind standardRatesTable rate ≠ standardRatesTable.length then
    standardRatesTable.getD (qBinaryFind standardRatesTable rate) 0
  else 0

/-! ## Tables of the setters and sample states -/

/-- The parity fields `setParity` stores: the `Parity` code and the `fParity` flag. -/
def parityFields : Parity → Nat × Bool
  | .NoParity => (NOPARITY, false)
  | .OddParity => (ODDPARITY, true)
  | .EvenParity => (EVENPARITY, true)
  | .MarkParity => (MARKPARITY, true)
  | .SpaceParity => (SPACEPARITY, true)
  | .UnknownParity => (NOPARITY, false)

/-- The stop-bits code `setStopBits` stores. -/
def stopBitsField : StopBits → Nat
  | .OneStop => ONESTOPBIT
  | .OneAndHalfStop => ONE5STOPBITS
  | .TwoStop => TWOSTOPBITS
  | .UnknownStopBits => ONESTOPBIT

/-- The flow-control fields `setFlowControl` stores:
`fInX`, `fOutX`, `fOutxCtsFlow`, `fRtsControl`. -/
def flowFields : FlowControl → Bool × Bool × Bool × Nat
  | .NoFlowControl => (false, false, false, RTS_CONTROL_DISABLE)
  | .SoftwareControl => (true, true, false, RTS_CONTROL_DISABLE)
  | .HardwareControl => (false, false, true, RTS_CONTROL_HANDSHAKE)
  | .UnknownFlowControl => (false, false, false, RTS_CONTROL_DISABLE)

/-- A reply reporting success. -/
def okReply : Reply :=
  { ok := true, err := 0, val := 0, bytes := [], worked := false, mask := none }

/-- A reply reporting failure with `ERROR_INVALID_PARAMETER`. -/
def failReply : Reply :=
  { ok := false, err := ERROR_INVALID_PARAMETER, val := 0, bytes := [], worked := false,
    mask := none }

/-- The all-zero configuration block (`memset` in the constructor). -/
def zeroDcb : DCB :=
  { BaudRate := 0, fBinary := false, fParity := false, fOutxCtsFlow := false, fOutX := false,
    fInX := false, fErrorChar := false, fNull := false, fRtsControl := 0,
    fAbortOnError := false, ByteSize := 0, Parity := 0, StopBits := 0 }

/-- The all-zero timeout block (`memset` in the constructor). -/
def zeroTimeouts : COMMTIMEOUTS :=
  { ReadIntervalTimeout := 0, ReadTotalTimeoutMultiplier := 0, ReadTotalTimeoutConstant := 0,
    WriteTotalTimeoutMultiplier := 0, WriteTotalTimeoutConstant := 0 }

/-- The engine as the constructor `WinCESerialPortEngine::WinCESerialPortEngine` leaves it. -/
def initEngine : Engine :=
  { m_descriptor := INVALID_HANDLE_VALUE, m_flagErrorFromCommEvent := false,
    m_currentMask := 0, m_desiredMask := 0, m_running := true, threadRunning := false,
    m_currentDcb := zeroDcb, m_restoredDcb := zeroDcb,
    m_currentCommTimeouts := zeroTimeouts, m_restoredCommTimeouts := zeroTimeouts }

/-- An owner object with the given data-error policy and nothing else set. -/
def ownerWith (policy : DataErrorPolicy) : SerialPortPrivate :=
  { options :=
      { inputRate := 0, outputRate := 0, dataBits := DataBits.UnknownDataBits,
        parity := Parity.UnknownParity, stopBits := StopBits.UnknownStopBits,
        flow := FlowControl.UnknownFlowControl, policy := policy,
        restoreSettingsOnClose := false }
    error := PortError.NoError
    notifications := [] }

/-- A device with empty log answering the n-th call with `reply n`; it holds a
9600 baud, 8 data bits block. -/
def deviceWith (reply : Nat → Reply) : Device :=
  { mask := 0, dcb := { zeroDcb with BaudRate := 9600, ByteSize := 8 },
    timeouts := zeroTimeouts, lastError := 0, reply := reply, log := [] }

/-- A freshly constructed engine in front of `deviceWith reply`. -/
def sysWith (policy : DataErrorPolicy) (reply : Nat → Reply) : Sys :=
  { e := initEngine, d := ownerWith policy, dev := deviceWith reply }

/-- The state reached from a fresh engine by the five setters with
115200 baud, 8 data bits, even parity, 2 stop bits, hardware flow control. -/
def sampleConfigured : Sys :=
  (setFlowControl (setStopBits (setParity (setDataBits
    (setRate (sysWith DataErrorPolicy.IgnorePolicy (fun _ => okReply)) 115200
      Directions.AllDirections).2 DataBits.Data8).2 Parity.EvenParity).2
    StopBits.TwoStop).2 FlowControl.HardwareControl).2

/-- A fresh engine whose desired mask already holds the read and error bits. -/
def sampleMasked : Sys :=
  { e := { initEngine with m_desiredMask := 129 }
    d := ownerWith DataErrorPolicy.IgnorePolicy
    dev := deviceWith (fun _ => okReply) }

/-- A device that accepts every call, reports the write-ready event, except that it rejects
its sixth call. -/
def rejectSixth : Nat → Reply :=
  fun n => if n = 5 then failReply else { okReply with val := EV_TXEMPTY }

/-- A device that accepts every call and whose watchdog fires, leaving the active mask 0,
while the wait reports the read-ready bit; the first call reports an empty input queue. -/
def watchdogFires : Nat → Reply :=
  fun n => if n = 0 then okReply
    else { okReply with val := EV_RXCHAR, worked := true, mask := some 0 }

/-- A device that accepts every call and reports 3 bytes in its input queue. -/
def threeQueued : Nat → Reply :=
  fun _ => { okReply with val := 3 }

/-- Whether the closing mask write of `select` is accepted, at a restore point. -/
def restoreAccepted : Option (Nat × Device) → Bool
  | some (old, dev) => (SetCommMask dev old).1
  | none => true

/-- A device with one byte ready that accepts every call. -/
def oneByteReady : Nat → Reply :=
  fun _ => { okReply with bytes := [65] }

/-- A device with five bytes ready that accepts every call. -/
def fiveBytesReady : Nat → Reply :=
  fun _ => { okReply with bytes := [65, 66, 67, 68, 69] }

/-- A state like `sysWith` but with the error latch set. -/
def latchedSys (policy : DataErrorPolicy) (reply : Nat → Reply) : Sys :=
  { e := { initEngine with m_flagErrorFromCommEvent := true }
    d := ownerWith policy
    dev := deviceWith reply }

/-- A device that hands out the handle 7 and rejects every later call. -/
def onlyCreateSucceeds : Nat → Reply :=
  fun n => if n = 0 then { okReply with val := 7 } else failReply

/-- A device that rejects every call. -/
def rejectAll : Nat → Reply :=
  fun _ => failReply

/-- A port location used in examples. -/
def samplePort : String := "COM1:"

/-- An engine whose current block is the 9600 baud block the device holds. -/
def sys9600 (reply : Nat → Reply) : Sys :=
  { e := { initEngine with m_currentDcb := (deviceWith reply).dcb }
    d := ownerWith DataErrorPolicy.IgnorePolicy
    dev := deviceWith reply }

/-- A device that accepts every call: the first queue query reports an empty queue, the wait
reports the read-ready and write-ready bits, and the queue query after the wait (the seventh
call) reports 2 bytes. -/
def genuineWake : Nat → Reply :=
  fun n => if n = 0 then okReply
    else if n = 6 then { okReply with val := 2 }
    else { okReply with val := 5 }

/-- A fresh engine with every category desired, in front of a device whose wait reports the
error and write-ready bits. -/
def sampleWaiter : Sys :=
  { e := { initEngine with m_desiredMask := 133 }
    d := ownerWith DataErrorPolicy.IgnorePolicy
    dev := deviceWith (fun _ => { okReply with val := 132 }) }

/-- A fresh engine in front of a device configured for XON/XOFF flow control, which accepts
every call and hands out the handle 7. -/
def sampleXonXoff : Sys :=
  { e := initEngine
    d := ownerWith DataErrorPolicy.IgnorePolicy
    dev :=
      { mask := 0
        dcb := { zeroDcb with BaudRate := 9600, ByteSize := 8, fInX := true, fOutX := true }
        timeouts := zeroTimeouts
        lastError := 0
        reply := fun _ => { okReply with val := 7 }
        log := [] } }

/-- The port name COM3. -/
def sampleName : List Char := ['C', 'O', 'M', '3']

/-! ## Theorems -/

section Configuration

theorem updateDcb_e (s : Sys) : (updateDcb s).2.e = s.e := by
  unfold updateDcb
  simp only []
  split <;> rfl

theorem setRate_dcb (s : Sys) (r : Int) :
    (setRate s r Directions.AllDirections).2.e.m_currentDcb
      = { s.e.m_currentDcb with BaudRate := toDWORD r } := by
  simp [setRate, updateDcb_e, Sys.withDcb]

theorem setDataBits_dcb (s : Sys) (b : DataBits) :
    (setDataBits s b).2.e.m_currentDcb
      = { s.e.m_currentDcb with ByteSize := toBYTE b.toInt } := by
  simp [setDataBits, updateDcb_e, Sys.withDcb]

theorem setParity_dcb (s : Sys) (p : Parity) :
    (setParity s p).2.e.m_currentDcb
      = { s.e.m_currentDcb with Parity := (parityFields p).1, fParity := (parityFields p).2 } := by
  cases p <;> simp [setParity, updateDcb_e, Sys.withDcb, parityFields]

theorem setStopBits_dcb (s : Sys) (sb : StopBits) :
    (setStopBits s sb).2.e.m_currentDcb
      = { s.e.m_currentDcb with StopBits := stopBitsField sb } := by
  cases sb <;> simp [setStopBits, updateDcb_e, Sys.withDcb, stopBitsField]

theorem setFlowControl_dcb (s : Sys) (f : FlowControl) :
    (setFlowControl s f).2.e.m_currentDcb
      = { s.e.m_currentDcb with
          fInX := (flowFields f).1, fOutX := (flowFields f).2.1,
          fOutxCtsFlow := (flowFields f).2.2.1, fRtsControl := (flowFields f).2.2.2 } := by
  cases f <;> simp [setFlowControl, updateDcb_e, Sys.withDcb, flowFields]

theorem applyAll_some (s s' : Sys) (r : Int) (b : DataBits) (p : Parity) (sb : StopBits)
    (f : FlowControl) (h : applyAll s r b p sb f = some s') :
    s' = (setFlowControl (setStopBits (setParity (setDataBits
            (setRate s r Directions.AllDirections).2 b).2 p).2 sb).2 f).2 := by
  unfold applyAll at h
  simp only [] at h
  split at h
  · exact absurd h (by simp)
  split at h
  · exact absurd h (by simp)
  split at h
  · exact absurd h (by simp)
  split at h
  · exact absurd h (by simp)
  split at h
  · exact absurd h (by simp)
  exact (Option.some.inj h).symm

theorem toQint32_toDWORD (r : Int) (h0 : 0 < r) (h1 : r < 2147483648) :
    toQint32 (toDWORD r) = r := by
  unfold toQint32 toDWORD
  have e : (r % 4294967296).toNat = r.toNat := by
    rw [Int.emod_eq_of_lt (by omega) (by omega)]
  rw [e]
  have hlt : r.toNat < 2147483648 := by omega
  have hm : r.toNat % 4294967296 = r.toNat := Nat.mod_eq_of_lt (by omega)
  rw [hm, if_pos hlt]
  omega

/-- C1. Configuration round trip: from any starting block, after `setRate(r, AllDirections)`,
`setDataBits(b)`, `setParity(p)`, `setStopBits(s)`, `setFlowControl(f)` have all succeeded, for
a positive `qint32` rate and known values of the other four settings,
`detectDefaultSettings` reads back exactly `r`, `b`, `p`, `s` and `f`. -/
theorem config_round_trip (s s' : Sys) (r : Int) (b : DataBits) (p : Parity) (sb : StopBits)
    (f : FlowControl)
    (hr : 0 < r) (hr32 : r < 2147483648)
    (hb : b ≠ DataBits.UnknownDataBits) (hp : p ≠ Parity.UnknownParity)
    (hsb : sb ≠ StopBits.UnknownStopBits) (hf : f ≠ FlowControl.UnknownFlowControl)
    (happly : applyAll s r b p sb f = some s') :
    (detectDefaultSettings s').d.options.inputRate = r
      ∧ (detectDefaultSettings s').d.options.outputRate = r
      ∧ (detectDefaultSettings s').d.options.dataBits = b
      ∧ (detectDefaultSettings s').d.options.parity = p
      ∧ (detectDefaultSettings s').d.options.stopBits = sb
      ∧ (detectDefaultSettings s').d.options.flow = f := by
  have hs := applyAll_some s s' r b p sb f happly
  have hd : s'.e.m_currentDcb =
      { s.e.m_currentDcb with
        BaudRate := toDWORD r, ByteSize := toBYTE b.toInt,
        Parity := (parityFields p).1, fParity := (parityFields p).2,
        StopBits := stopBitsField sb,
        fInX := (flowFields f).1, fOutX := (flowFields f).2.1,
        fOutxCtsFlow := (flowFields f).2.2.1, fRtsControl := (flowFields f).2.2.2 } := by
    rw [hs, setFlowControl_dcb, setStopBits_dcb, setParity_dcb, setDataBits_dcb, setRate_dcb]
  have hrate := toQint32_toDWORD r hr hr32
  refine ⟨?_, ?_, ?_, ?_, ?_, ?_⟩
  · simp [detectDefaultSettings, hd, hrate]
  · simp [detectDefaultSettings, hd, hrate]
  · cases b <;> simp [detectDefaultSettings, hd, detectDataBits, toBYTE, DataBits.toInt] at hb ⊢
  · cases p <;> simp [detectDefaultSettings, hd, detectParity, parityFields, NOPARITY,
      ODDPARITY, EVENPARITY, MARKPARITY, SPACEPARITY] at hp ⊢
  · cases sb <;> simp [detectDefaultSettings, hd, detectStopBits, stopBitsField, ONESTOPBIT,
      ONE5STOPBITS, TWOSTOPBITS] at hsb ⊢
  · cases f <;> simp [detectDefaultSettings, hd, detectFlow, flowFields, RTS_CONTROL_DISABLE,
      RTS_CONTROL_HANDSHAKE] at hf ⊢

end Configuration


/-- Witness for C1: 115200 baud, 8 data bits, even parity, 2 stop bits, hardware flow
control are read back from a fresh engine after the five setters. -/
theorem config_round_trip_witness :
    (detectDefaultSettings sampleConfigured).d.options.inputRate = 115200
      ∧ (detectDefaultSettings sampleConfigured).d.options.outputRate = 115200
      ∧ (detectDefaultSettings sampleConfigured).d.options.dataBits = DataBits.Data8
      ∧ (detectDefaultSettings sampleConfigured).d.options.parity = Parity.EvenParity
      ∧ (detectDefaultSettings sampleConfigured).d.options.stopBits = StopBits.TwoStop
      ∧ (detectDefaultSettings sampleConfigured).d.options.flow = FlowControl.HardwareControl :=
  config_round_trip (sysWith DataErrorPolicy.IgnorePolicy (fun _ => okReply)) sampleConfigured
    115200 DataBits.Data8 Parity.EvenParity StopBits.TwoStop FlowControl.HardwareControl
    (by decide) (by decide) (by decide) (by decide) (by decide) (by decide) rfl

section Masks

theorem testBit_false_of_lt_dword (n i : Nat) (hn : n < 4294967296) (hi : 32 ≤ i) :
    n.testBit i = false := by
  apply Nat.testBit_lt_two_pow
  calc n < 2 ^ 32 := by simpa using hn
    _ ≤ 2 ^ i := Nat.pow_le_pow_right (by decide) hi

theorem testBit_maxdword (i : Nat) : (4294967295 : Nat).testBit i = decide (i < 32) := by
  have : (4294967295 : Nat) = 2 ^ 32 - 1 := by norm_num
  rw [this, Nat.testBit_two_pow_sub_one]

theorem setNotificationEnabled_desired (s : Sys) (e : Bool) (c : Nat) :
    (setNotificationEnabled s e c).e.m_desiredMask
      = if e then s.e.m_desiredMask ||| c else s.e.m_desiredMask &&& notDWORD c := by
  simp [setNotificationEnabled]

theorem desired_bits (m c : Nat) (e : Bool) (hm : m < DWORD_SIZE) (i : Nat) :
    (if e then m ||| c else m &&& notDWORD c).testBit i
      = if c.testBit i then e else m.testBit i := by
  unfold DWORD_SIZE at *
  cases e
  · simp only [notDWORD, Bool.false_eq_true, if_false, Nat.testBit_and, Nat.testBit_xor,
      testBit_maxdword]
    by_cases hi : i < 32
    · have h32 : (4294967296 : Nat) = 2 ^ 32 := by norm_num
      rw [h32, Nat.testBit_mod_two_pow]
      cases hb : c.testBit i <;> simp [hi]
    · have hm' := testBit_false_of_lt_dword m i hm (by omega)
      simp [hm']
  · simp only [if_true, Nat.testBit_or]
    cases hb : c.testBit i <;> simp

/-- C2. Mask independence: after `setNotificationEnabled(e, c)` for a category mask `c`
(read-ready, write-ready or line-error), every bit of the desired mask outside `c` is as in
the desired mask `m` before the call, and every bit of `c` equals the enable flag `e`. -/
theorem mask_independence (s : Sys) (e : Bool) (c : Nat)
    (hc : c = EV_RXCHAR ∨ c = EV_TXEMPTY ∨ c = EV_ERR)
    (hm : s.e.m_desiredMask < DWORD_SIZE) (i : Nat) :
    (setNotificationEnabled s e c).e.m_desiredMask.testBit i
      = if c.testBit i then e else s.e.m_desiredMask.testBit i := by
  have _ := hc
  rw [setNotificationEnabled_desired]
  exact desired_bits _ c e hm i

/-- Witness for C2: disabling the read category in the mask 129 (read and error bits)
leaves bit 7, the error bit, as it was. -/
theorem mask_independence_witness :
    (setNotificationEnabled sampleMasked false EV_RXCHAR).e.m_desiredMask.testBit 7
      = if EV_RXCHAR.testBit 7 then false else sampleMasked.e.m_desiredMask.testBit 7 :=
  mask_independence sampleMasked false EV_RXCHAR (Or.inl rfl) (by decide) 7

end Masks

section Poll

theorem bytesAvailable_mask (dev : Device) : (bytesAvailable dev).2.mask = dev.mask := by
  unfold bytesAvailable ClearCommError
  split <;> split <;> simp_all [Device.logged, Device.failed]

theorem bytesAvailable_log (dev : Device) :
    (bytesAvailable dev).2.log = dev.log ++ [Call.ClearCommError] := by
  unfold bytesAvailable ClearCommError
  split <;> split <;> simp_all [Device.logged, Device.failed]

theorem selectEntry_mask (s : Sys) (cr : Bool) : (selectEntry s cr).mask = s.dev.mask := by
  unfold selectEntry
  split
  · exact bytesAvailable_mask _
  · rfl

theorem GetCommMask_fst (dev : Device) :
    (GetCommMask dev).1 = if dev.next.ok then some dev.mask else none := by
  unfold GetCommMask
  split <;> rfl

theorem GetCommMask_mask (dev : Device) : (GetCommMask dev).2.mask = dev.mask := by
  unfold GetCommMask
  split <;> rfl

theorem SetCommMask_fst (dev : Device) (m : Nat) : (SetCommMask dev m).1 = dev.next.ok := by
  unfold SetCommMask
  split <;> simp_all

theorem SetCommMask_mask (dev : Device) (m : Nat) :
    (SetCommMask dev m).2.mask = if dev.next.ok then m else dev.mask := by
  unfold SetCommMask
  split <;> simp_all [Device.failed]

theorem selectPrepare_none (dev : Device) (cr cw : Bool)
    (h : (selectPrepare dev cr cw).1 = none) : (selectPrepare dev cr cw).2.mask = dev.mask := by
  unfold selectPrepare at h ⊢
  simp only [] at h ⊢
  cases hg : (GetCommMask dev).1 with
  | none => simp only [hg]; exact GetCommMask_mask dev
  | some old =>
    simp only [hg] at h ⊢
    split at h
    · rename_i hne
      rw [if_pos hne]
      split at h
      · rename_i hw
        rw [if_pos hw]
        rw [SetCommMask_fst] at hw
        simp only [SetCommMask_mask, hw]
        simpa using GetCommMask_mask dev
      · exact absurd h (by simp)
    · exact absurd h (by simp)

theorem selectPrepare_some (dev : Device) (cr cw : Bool) (old : Nat)
    (h : (selectPrepare dev cr cw).1 = some old) : old = dev.mask := by
  unfold selectPrepare at h
  simp only [] at h
  have hg := GetCommMask_fst dev
  cases hok : dev.next.ok
  · rw [hok] at hg
    simp only [hg] at h
    exact absurd h (by simp)
  · rw [hok] at hg
    simp only [hg, if_true] at h
    split at h
    · split at h
      · exact absurd h (by simp)
      · exact (Option.some.inj h).symm
    · exact (Option.some.inj h).symm

theorem SetCommMask_ok_mask (dev : Device) (m : Nat) (h : (SetCommMask dev m).1 = true) :
    (SetCommMask dev m).2.mask = m := by
  rw [SetCommMask_fst] at h
  rw [SetCommMask_mask, h]
  rfl

theorem SetCommMask_rejected_mask (dev : Device) (m : Nat)
    (h : (SetCommMask dev m).1 = false) : (SetCommMask dev m).2.mask = dev.mask := by
  rw [SetCommMask_fst] at h
  rw [SetCommMask_mask, h]
  rfl

/-- C3 (amended). `select` leaves the active event mask of the device as it was before the
call on the forward-check path and on the paths failing before the wait, and on the wait
paths (genuine event or forced cancellation, whatever the watchdog did to the mask) as soon
as the device accepts the closing write of the saved mask.  If the device rejects that
closing write, the active mask on return is the one in force just before that write. -/
theorem select_restores_mask (s : Sys) (timeout : Int) (checkRead checkWrite : Bool) :
    ((∀ old dev, selectRestorePoint s timeout checkRead checkWrite = some (old, dev) →
        (SetCommMask dev old).1 = true) →
      (select s timeout checkRead checkWrite).sys.dev.mask = s.dev.mask)
      ∧ (∀ old dev, selectRestorePoint s timeout checkRead checkWrite = some (old, dev) →
          (SetCommMask dev old).1 = false →
          (select s timeout checkRead checkWrite).sys.dev.mask = dev.mask) := by
  unfold select selectRestorePoint
  by_cases hfast : selectFastPath s checkRead = true
  · rw [if_pos hfast, if_pos hfast]
    exact ⟨fun _ => bytesAvailable_mask _, fun _ _ h => absurd h (by simp)⟩
  · rw [if_neg hfast, if_neg hfast]
    simp only []
    cases hp : (selectPrepare (selectEntry s checkRead) checkRead checkWrite).1 with
    | none =>
      simp only [hp]
      refine ⟨fun _ => ?_, fun _ _ h => absurd h (by simp)⟩
      rw [selectPrepare_none _ _ _ hp, selectEntry_mask]
    | some old =>
      simp only [hp]
      have hold := selectPrepare_some _ _ _ _ hp
      rw [selectEntry_mask] at hold
      refine ⟨fun hrestore => ?_, fun old1 dev h hrej => ?_⟩
      · have := hrestore old _ rfl
        rw [SetCommMask_ok_mask _ _ this, hold]
      · have hpair := Option.some.inj h
        have ho : old = old1 := congrArg Prod.fst hpair
        have hd := congrArg Prod.snd hpair
        simp only [] at hd
        subst ho
        rw [hd]
        exact SetCommMask_rejected_mask dev old hrej

/-- Witness for C3 (amended): a forced cancellation whose watchdog leaves the mask 0, on a
device that accepts the closing write; the mask is back to its value before the call. -/
theorem select_restores_mask_witness :
    (select (sysWith DataErrorPolicy.IgnorePolicy watchdogFires) 50 false true).sys.dev.mask
      = (sysWith DataErrorPolicy.IgnorePolicy watchdogFires).dev.mask :=
  (select_restores_mask (sysWith DataErrorPolicy.IgnorePolicy watchdogFires) 50 false true).1
    (fun _ _ h => (congrArg restoreAccepted h).symm.trans rfl)

/-- Counterexample to C3 as stated: with `checkWrite` set, a mask store that holds 0, accepts
the extending write and rejects the closing write (leaving the mask as it is) ends with the
active mask `EV_TXEMPTY`, although `select` reports success. -/
theorem select_mask_not_restored :
    (sysWith DataErrorPolicy.IgnorePolicy rejectSixth).dev.mask = 0
      ∧ (select (sysWith DataErrorPolicy.IgnorePolicy rejectSixth) 1000 false true).ret = true
      ∧ (select (sysWith DataErrorPolicy.IgnorePolicy rejectSixth) 1000 false true).sys.dev.mask
          = 4 := by
  refine ⟨rfl, rfl, rfl⟩

/-- C4. Forced cancellation is never reported as readiness: when the forward check does not
succeed, the mask has been saved and extended, and the watchdog reports that it fired, then
`select` returns false and writes neither `selectForRead` nor `selectForWrite`, whatever
event bits the wait left. -/
theorem select_forced_cancellation (s : Sys) (timeout : Int) (checkRead checkWrite : Bool)
    (old : Nat)
    (hfast : selectFastPath s checkRead = false)
    (hprep : (selectPrepare (selectEntry s checkRead) checkRead checkWrite).1 = some old)
    (hworked : (selectWait (selectPrepare (selectEntry s checkRead) checkRead checkWrite).2
      timeout).1.2 = true) :
    (select s timeout checkRead checkWrite).ret = false
      ∧ (select s timeout checkRead checkWrite).selectForRead = none
      ∧ (select s timeout checkRead checkWrite).selectForWrite = none := by
  unfold select
  simp only [hfast, hprep, hworked, selectFlags]
  simp

/-- Witness for C4: the watchdog fires while the wait output holds the read-ready bit. -/
theorem select_forced_cancellation_witness :
    (select (sysWith DataErrorPolicy.IgnorePolicy watchdogFires) 50 true true).ret = false
      ∧ (select (sysWith DataErrorPolicy.IgnorePolicy watchdogFires) 50 true true).selectForRead
          = none
      ∧ (select (sysWith DataErrorPolicy.IgnorePolicy watchdogFires) 50 true true).selectForWrite
          = none :=
  select_forced_cancellation (sysWith DataErrorPolicy.IgnorePolicy watchdogFires) 50 true true
    0 rfl rfl rfl

/-- C5. Fast path of `select`: with `checkRead` set and a driver reporting `n > 0` queued
input bytes, `select` returns true with `selectForRead = true`, for every timeout and every
`checkWrite`; the only device call it issues is the queue-length query (no wait, no watchdog,
no read or write of the event mask), and the active mask is untouched. -/
theorem select_fast_path (s : Sys) (timeout : Int) (checkWrite : Bool) (n : Nat)
    (hq : (ClearCommError s.dev).1 = some n) (hn : 0 < n) :
    (select s timeout true checkWrite).ret = true
      ∧ (select s timeout true checkWrite).selectForRead = some true
      ∧ (select s timeout true checkWrite).sys.dev.log = s.dev.log ++ [Call.ClearCommError]
      ∧ (select s timeout true checkWrite).sys.dev.mask = s.dev.mask := by
  have hb : (bytesAvailable s.dev).1 = (n : Int) := by
    unfold bytesAvailable
    simp only [hq]
  have hfast : selectFastPath s true = true := by
    unfold selectFastPath
    simp only [hb, Bool.true_and, decide_eq_true_eq]
    exact_mod_cast hn
  unfold select
  rw [if_pos hfast]
  exact ⟨rfl, rfl, bytesAvailable_log _, bytesAvailable_mask _⟩

/-- Witness for C5: three queued bytes, timeout 0. -/
theorem select_fast_path_witness :
    (select (sysWith DataErrorPolicy.IgnorePolicy threeQueued) 0 true false).ret = true
      ∧ (select (sysWith DataErrorPolicy.IgnorePolicy threeQueued) 0 true false).selectForRead
          = some true
      ∧ (select (sysWith DataErrorPolicy.IgnorePolicy threeQueued) 0 true false).sys.dev.log
          = (sysWith DataErrorPolicy.IgnorePolicy threeQueued).dev.log ++ [Call.ClearCommError]
      ∧ (select (sysWith DataErrorPolicy.IgnorePolicy threeQueued) 0 true false).sys.dev.mask
          = (sysWith DataErrorPolicy.IgnorePolicy threeQueued).dev.mask :=
  select_fast_path (sysWith DataErrorPolicy.IgnorePolicy threeQueued) 0 false 3 rfl
    (by decide)

end Poll


section Reading

/-- C6. `read` under the skip policy: for every buffer and every requested length, if the
error latch is set and the device read succeeds, `read` returns 0 and the latch is cleared. -/
theorem read_skip_policy (s : Sys) (data : List Nat) (len : Int)
    (hpol : s.d.options.policy = DataErrorPolicy.SkipPolicy)
    (hlatch : s.e.m_flagErrorFromCommEvent = true)
    (hok : s.dev.next.ok = true) :
    (read s data len).ret = 0
      ∧ (read s data len).sys.e.m_flagErrorFromCommEvent = false := by
  unfold read ReadFile
  simp [hpol, hlatch, hok]

/-- Witness for C6: five bytes requested, one byte ready, latch set. -/
theorem read_skip_policy_witness :
    (read (latchedSys DataErrorPolicy.SkipPolicy oneByteReady) [0, 0, 0, 0, 0] 5).ret = 0
      ∧ (read (latchedSys DataErrorPolicy.SkipPolicy oneByteReady)
          [0, 0, 0, 0, 0] 5).sys.e.m_flagErrorFromCommEvent = false :=
  read_skip_policy (latchedSys DataErrorPolicy.SkipPolicy oneByteReady) [0, 0, 0, 0, 0] 5
    rfl rfl rfl

/-- C7 (amended). `read` under the pass-zero-byte policy: for every requested length of at
least 1, if the error latch is set and the device read succeeds, `read` asks the device for
one byte and returns the number of bytes the device delivered (0 or 1, not the requested
count), the first byte of the buffer is zero, and the latch is cleared. -/
theorem read_pass_zero_policy (s : Sys) (data : List Nat) (len : Int)
    (hlen : 1 ≤ len)
    (hpol : s.d.options.policy = DataErrorPolicy.PassZeroPolicy)
    (hlatch : s.e.m_flagErrorFromCommEvent = true)
    (hok : s.dev.next.ok = true) :
    (read s data len).ret = ((s.dev.next.bytes.take 1).length : Int)
      ∧ (read s data len).ret ≤ 1
      ∧ (read s data len).data.head? = some 0
      ∧ (read s data len).sys.e.m_flagErrorFromCommEvent = false
      ∧ (read s data len).sys.dev.log = s.dev.log ++ [Call.ReadFile 1] := by
  have _ := hlen
  unfold read ReadFile
  simp [hpol, hlatch, hok, toDWORD, Device.logged]

/-- Witness for C7 (amended): five bytes requested and ready, latch set. -/
theorem read_pass_zero_policy_witness :
    (read (latchedSys DataErrorPolicy.PassZeroPolicy fiveBytesReady) [9, 9, 9, 9, 9] 5).ret
        = (((latchedSys DataErrorPolicy.PassZeroPolicy fiveBytesReady).dev.next.bytes.take
            1).length : Int)
      ∧ (read (latchedSys DataErrorPolicy.PassZeroPolicy fiveBytesReady) [9, 9, 9, 9, 9] 5).ret
          ≤ 1
      ∧ (read (latchedSys DataErrorPolicy.PassZeroPolicy fiveBytesReady)
          [9, 9, 9, 9, 9] 5).data.head? = some 0
      ∧ (read (latchedSys DataErrorPolicy.PassZeroPolicy fiveBytesReady)
          [9, 9, 9, 9, 9] 5).sys.e.m_flagErrorFromCommEvent = false
      ∧ (read (latchedSys DataErrorPolicy.PassZeroPolicy fiveBytesReady)
          [9, 9, 9, 9, 9] 5).sys.dev.log
          = (latchedSys DataErrorPolicy.PassZeroPolicy fiveBytesReady).dev.log
            ++ [Call.ReadFile 1] :=
  read_pass_zero_policy (latchedSys DataErrorPolicy.PassZeroPolicy fiveBytesReady)
    [9, 9, 9, 9, 9] 5 (by decide) rfl rfl rfl

/-- Counterexample to C7 as stated: five bytes requested (and five ready), latch set, device
read succeeding; `read` returns 1, not the requested 5. -/
theorem read_pass_zero_returns_one :
    (read (latchedSys DataErrorPolicy.PassZeroPolicy fiveBytesReady) [9, 9, 9, 9, 9] 5).ret = 1
      ∧ (read (latchedSys DataErrorPolicy.PassZeroPolicy fiveBytesReady)
          [9, 9, 9, 9, 9] 5).data = [0, 9, 9, 9, 9] := by
  refine ⟨rfl, rfl⟩

/-- C8 (failing input). With a policy other than ignore and a requested length 0, `read`
passes the length 1 to the device read, and with a byte ready it reports one byte read and
stores it in the zero-length buffer. -/
theorem read_zero_length_reads_one :
    (read (sysWith DataErrorPolicy.SkipPolicy oneByteReady) [] 0).sys.dev.log
        = [Call.ReadFile 1]
      ∧ (read (sysWith DataErrorPolicy.SkipPolicy oneByteReady) [] 0).ret = 1
      ∧ (read (sysWith DataErrorPolicy.SkipPolicy oneByteReady) [] 0).data = [65] := by
  refine ⟨rfl, rfl, rfl⟩

end Reading


section Opening

theorem updateDcb_log (s : Sys) :
    (updateDcb s).2.dev.log
      = s.dev.log ++ [Call.SetCommMask 0, Call.SetCommState s.e.m_currentDcb] := by
  unfold updateDcb SetCommState SetCommMask
  simp only [Device.failed, Device.next, Sys.setError]
  split_ifs <;> simp_all

theorem updateCommTimeouts_e (s : Sys) : (updateCommTimeouts s).2.e = s.e := by
  unfold updateCommTimeouts
  simp only []
  split <;> rfl

theorem updateCommTimeouts_log (s : Sys) :
    (updateCommTimeouts s).2.dev.log
      = s.dev.log ++ [Call.SetCommTimeouts s.e.m_currentCommTimeouts] := by
  unfold updateCommTimeouts SetCommTimeouts
  simp only [Device.failed, Device.next, Sys.setError]
  split_ifs <;> simp_all

theorem CreateFile_log (dev : Device) (l : String) (a b c : Nat) :
    (CreateFile dev l a b c).2.log = dev.log ++ [Call.CreateFile l a b c] := by
  unfold CreateFile
  simp only [Device.failed, Device.logged]
  split_ifs <;> rfl

theorem GetCommState_log (dev : Device) :
    (GetCommState dev).2.log = dev.log ++ [Call.GetCommState] := by
  unfold GetCommState
  simp only [Device.failed, Device.logged]
  split_ifs <;> rfl

theorem GetCommTimeouts_log (dev : Device) :
    (GetCommTimeouts dev).2.log = dev.log ++ [Call.GetCommTimeouts] := by
  unfold GetCommTimeouts
  simp only [Device.failed, Device.logged]
  split_ifs <;> rfl

theorem detectDefaultSettings_e (s : Sys) : (detectDefaultSettings s).e = s.e := rfl

theorem detectDefaultSettings_dev (s : Sys) : (detectDefaultSettings s).dev = s.dev := rfl

theorem open_descriptor (s : Sys) (location : String) (mode : Nat) :
    (open_ s location mode).2.e.m_descriptor
      = (CreateFile s.dev location (desiredAccessOf mode) 0 0).1 := by
  unfold open_
  simp only []
  split
  · rfl
  · split
    · rfl
    · split
      · rw [updateDcb_e]
      · split
        · simp only [Sys.setError, updateDcb_e]
        · split
          · rw [updateCommTimeouts_e]
            simp only [updateDcb_e]
          · rw [detectDefaultSettings_e, updateCommTimeouts_e]
            simp only [updateDcb_e]

theorem open_no_close (s : Sys) (location : String) (mode : Nat) (h : Nat)
    (hin : Call.CloseHandle h ∈ (open_ s location mode).2.dev.log) :
    Call.CloseHandle h ∈ s.dev.log := by
  unfold open_ at hin
  simp only [] at hin
  split at hin
  · simpa [Sys.setError, CreateFile_log] using hin
  · split at hin
    · simpa [Sys.setError, CreateFile_log, GetCommState_log] using hin
    · split at hin
      · simpa [updateDcb_log, CreateFile_log, GetCommState_log] using hin
      · split at hin
        · simpa [Sys.setError, updateDcb_log, CreateFile_log, GetCommState_log,
            GetCommTimeouts_log] using hin
        · split at hin
          · simpa [updateCommTimeouts_log, updateDcb_log, CreateFile_log, GetCommState_log,
              GetCommTimeouts_log] using hin
          · simpa [detectDefaultSettings_dev, updateCommTimeouts_log, updateDcb_log,
              CreateFile_log, GetCommState_log, GetCommTimeouts_log] using hin

/-- C9 (amended). Whenever `open` returns failure, the handle field of the engine holds what
the acquisition returned: the invalid sentinel when the handle could not be acquired, and
otherwise the acquired handle, which stays open, since `open` issues no `CloseHandle`. -/
theorem open_failure_handle (s : Sys) (location : String) (mode : Nat)
    (hfail : (open_ s location mode).1 = false) :
    (open_ s location mode).2.e.m_descriptor
        = (CreateFile s.dev location (desiredAccessOf mode) 0 0).1
      ∧ ∀ h, Call.CloseHandle h ∈ (open_ s location mode).2.dev.log →
          Call.CloseHandle h ∈ s.dev.log := by
  have _ := hfail
  exact ⟨open_descriptor s location mode, fun h => open_no_close s location mode h⟩

/-- Witness for C9 (amended): the device rejects every call, so the handle cannot be
acquired. -/
theorem open_failure_handle_witness :
    (open_ (sysWith DataErrorPolicy.IgnorePolicy rejectAll) samplePort 3).2.e.m_descriptor
        = (CreateFile (sysWith DataErrorPolicy.IgnorePolicy rejectAll).dev samplePort
            (desiredAccessOf 3) 0 0).1
      ∧ ∀ h, Call.CloseHandle h
            ∈ (open_ (sysWith DataErrorPolicy.IgnorePolicy rejectAll) samplePort 3).2.dev.log →
          Call.CloseHandle h ∈ (sysWith DataErrorPolicy.IgnorePolicy rejectAll).dev.log :=
  open_failure_handle (sysWith DataErrorPolicy.IgnorePolicy rejectAll) samplePort 3 rfl

/-- Counterexample to C9 as stated: the handle 7 is acquired and the configuration snapshot
fails; `open` returns false, the handle field still holds 7, and the calls issued are
`CreateFile` and `GetCommState` only. -/
theorem open_failure_leaves_handle :
    (open_ (sysWith DataErrorPolicy.IgnorePolicy onlyCreateSucceeds) samplePort 3).1 = false
      ∧ (open_ (sysWith DataErrorPolicy.IgnorePolicy onlyCreateSucceeds)
          samplePort 3).2.e.m_descriptor = 7
      ∧ (7 : Nat) ≠ INVALID_HANDLE_VALUE
      ∧ (open_ (sysWith DataErrorPolicy.IgnorePolicy onlyCreateSucceeds)
          samplePort 3).2.dev.log
          = [Call.CreateFile samplePort 3221225472 0 0, Call.GetCommState] := by
  refine ⟨rfl, rfl, by decide, rfl⟩

end Opening

section FailedApply

theorem updateDcb_fst (s : Sys) :
    (updateDcb s).1 = (s.dev.reply (s.dev.log.length + 1)).ok := by
  unfold updateDcb SetCommState SetCommMask
  simp only [Device.failed, Device.next]
  split_ifs <;> simp_all

/-- C10 (amended). If the device rejects the apply, every setter returns failure and the
current block keeps what the setter has just stored in the fields it targets (there is no
rollback); the fields it does not target are unchanged. -/
theorem failed_apply_keeps_mutation (s : Sys) (r : Int) (b : DataBits) (p : Parity)
    (sb : StopBits) (f : FlowControl)
    (hrej : (s.dev.reply (s.dev.log.length + 1)).ok = false) :
    ((setRate s r Directions.AllDirections).1 = false
        ∧ (setRate s r Directions.AllDirections).2.e.m_currentDcb
            = { s.e.m_currentDcb with BaudRate := toDWORD r })
      ∧ ((setDataBits s b).1 = false
        ∧ (setDataBits s b).2.e.m_currentDcb
            = { s.e.m_currentDcb with ByteSize := toBYTE b.toInt })
      ∧ ((setParity s p).1 = false
        ∧ (setParity s p).2.e.m_currentDcb
            = { s.e.m_currentDcb with
                Parity := (parityFields p).1, fParity := (parityFields p).2 })
      ∧ ((setStopBits s sb).1 = false
        ∧ (setStopBits s sb).2.e.m_currentDcb
            = { s.e.m_currentDcb with StopBits := stopBitsField sb })
      ∧ ((setFlowControl s f).1 = false
        ∧ (setFlowControl s f).2.e.m_currentDcb
            = { s.e.m_currentDcb with
                fInX := (flowFields f).1, fOutX := (flowFields f).2.1,
                fOutxCtsFlow := (flowFields f).2.2.1, fRtsControl := (flowFields f).2.2.2 }) := by
  refine ⟨⟨?_, setRate_dcb s r⟩, ⟨?_, setDataBits_dcb s b⟩, ⟨?_, setParity_dcb s p⟩,
    ⟨?_, setStopBits_dcb s sb⟩, ⟨?_, setFlowControl_dcb s f⟩⟩
  · simp [setRate, updateDcb_fst, Sys.withDcb, hrej]
  · simp [setDataBits, updateDcb_fst, Sys.withDcb, hrej]
  · simp [setParity, updateDcb_fst, Sys.withDcb, hrej]
  · simp [setStopBits, updateDcb_fst, Sys.withDcb, hrej]
  · simp [setFlowControl, updateDcb_fst, Sys.withDcb, hrej]

/-- Witness for C10 (amended): a device rejecting every call. -/
theorem failed_apply_keeps_mutation_witness :
    ((setRate (sys9600 rejectAll) 115200 Directions.AllDirections).1 = false
        ∧ (setRate (sys9600 rejectAll) 115200 Directions.AllDirections).2.e.m_currentDcb
            = { (sys9600 rejectAll).e.m_currentDcb with BaudRate := toDWORD 115200 })
      ∧ ((setDataBits (sys9600 rejectAll) DataBits.Data7).1 = false
        ∧ (setDataBits (sys9600 rejectAll) DataBits.Data7).2.e.m_currentDcb
            = { (sys9600 rejectAll).e.m_currentDcb with
                ByteSize := toBYTE DataBits.Data7.toInt })
      ∧ ((setParity (sys9600 rejectAll) Parity.OddParity).1 = false
        ∧ (setParity (sys9600 rejectAll) Parity.OddParity).2.e.m_currentDcb
            = { (sys9600 rejectAll).e.m_currentDcb with
                Parity := (parityFields Parity.OddParity).1,
                fParity := (parityFields Parity.OddParity).2 })
      ∧ ((setStopBits (sys9600 rejectAll) StopBits.TwoStop).1 = false
        ∧ (setStopBits (sys9600 rejectAll) StopBits.TwoStop).2.e.m_currentDcb
            = { (sys9600 rejectAll).e.m_currentDcb with
                StopBits := stopBitsField StopBits.TwoStop })
      ∧ ((setFlowControl (sys9600 rejectAll) FlowControl.SoftwareControl).1 = false
        ∧ (setFlowControl (sys9600 rejectAll) FlowControl.SoftwareControl).2.e.m_currentDcb
            = { (sys9600 rejectAll).e.m_currentDcb with
                fInX := (flowFields FlowControl.SoftwareControl).1,
                fOutX := (flowFields FlowControl.SoftwareControl).2.1,
                fOutxCtsFlow := (flowFields FlowControl.SoftwareControl).2.2.1,
                fRtsControl := (flowFields FlowControl.SoftwareControl).2.2.2 }) :=
  failed_apply_keeps_mutation (sys9600 rejectAll) 115200 DataBits.Data7 Parity.OddParity
    StopBits.TwoStop FlowControl.SoftwareControl rfl

/-- Counterexample to C10 as stated: the current block equals the 9600 baud block the device
holds, and the device rejects the apply of `setRate(115200)`; the setter returns false, the
device still holds 9600 baud, and the current block holds 115200 baud. -/
theorem failed_setRate_changes_current :
    (sys9600 rejectAll).e.m_currentDcb = (sys9600 rejectAll).dev.dcb
      ∧ (sys9600 rejectAll).e.m_currentDcb.BaudRate = 9600
      ∧ (setRate (sys9600 rejectAll) 115200 Directions.AllDirections).1 = false
      ∧ (setRate (sys9600 rejectAll) 115200 Directions.AllDirections).2.dev.dcb.BaudRate = 9600
      ∧ (setRate (sys9600 rejectAll) 115200
          Directions.AllDirections).2.e.m_currentDcb.BaudRate = 115200 := by
  refine ⟨rfl, rfl, rfl, rfl, rfl⟩

end FailedApply


section Direction

/-- C11. Unsupported rate direction: for every rate and every direction other than
`AllDirections`, `setRate` returns false, records `UnsupportedPortOperationError` in the
error slot of the owner, issues no device call (the call log, the active event mask and the
configuration held by the device are as before) and leaves the engine fields, the current
block with its baud rate among them, unchanged. -/
theorem setRate_unsupported_direction (s : Sys) (rate : Int) (dir : Directions)
    (hdir : dir ≠ Directions.AllDirections) :
    (setRate s rate dir).1 = false
      ∧ (setRate s rate dir).2.d.error = PortError.UnsupportedPortOperationError
      ∧ (setRate s rate dir).2.dev.log = s.dev.log
      ∧ (setRate s rate dir).2.dev.mask = s.dev.mask
      ∧ (setRate s rate dir).2.dev.dcb = s.dev.dcb
      ∧ (setRate s rate dir).2.e = s.e
      ∧ (setRate s rate dir).2.e.m_currentDcb.BaudRate = s.e.m_currentDcb.BaudRate := by
  unfold setRate
  rw [if_pos hdir]
  exact ⟨rfl, rfl, rfl, rfl, rfl, rfl, rfl⟩

/-- Witness for C11: `setRate(115200, Input)` on an engine holding 9600 baud. -/
theorem setRate_unsupported_direction_witness :
    (setRate (sys9600 rejectAll) 115200 Directions.Input).1 = false
      ∧ (setRate (sys9600 rejectAll) 115200 Directions.Input).2.d.error
          = PortError.UnsupportedPortOperationError
      ∧ (setRate (sys9600 rejectAll) 115200 Directions.Input).2.dev.log
          = (sys9600 rejectAll).dev.log
      ∧ (setRate (sys9600 rejectAll) 115200 Directions.Input).2.dev.mask
          = (sys9600 rejectAll).dev.mask
      ∧ (setRate (sys9600 rejectAll) 115200 Directions.Input).2.dev.dcb
          = (sys9600 rejectAll).dev.dcb
      ∧ (setRate (sys9600 rejectAll) 115200 Directions.Input).2.e = (sys9600 rejectAll).e
      ∧ (setRate (sys9600 rejectAll) 115200 Directions.Input).2.e.m_currentDcb.BaudRate
          = (sys9600 rejectAll).e.m_currentDcb.BaudRate :=
  setRate_unsupported_direction (sys9600 rejectAll) 115200 Directions.Input (by decide)

end Direction

section Waiter

/-- C12. Waiter dispatch order: on a successful wake, with the current mask the wait left
and the desired mask of the engine, the callbacks invoked in that pass are exactly the
categories whose bit is set in (current mask AND desired mask), each at most once, in the
order error callback, read callback, write callback. -/
theorem run_dispatch_order (s : Sys)
    (hwake : (WaitCommEvent (SetCommMask s.dev s.e.m_desiredMask).2).1.1 = true) :
    (runIteration s).d.notifications
        = s.d.notifications
          ++ dispatchOrder (runIteration s).e.m_currentMask (runIteration s).e.m_desiredMask
      ∧ (runIteration s).e.m_currentMask
          = (WaitCommEvent (SetCommMask s.dev s.e.m_desiredMask).2).1.2
      ∧ (runIteration s).e.m_desiredMask = s.e.m_desiredMask
      ∧ (dispatchOrder (runIteration s).e.m_currentMask
          (runIteration s).e.m_desiredMask).Sublist
          [Notification.canErrorNotification, Notification.canReadNotification,
            Notification.canWriteNotification]
      ∧ (dispatchOrder (runIteration s).e.m_currentMask
          (runIteration s).e.m_desiredMask).Nodup := by
  refine ⟨?_, ?_, ?_, List.filter_sublist _, ?_⟩
  · unfold runIteration
    simp only [hwake, if_true, Sys.notify, dispatchOrder, Notification.bit, Nat.land_assoc]
    split_ifs <;> simp_all [List.filter]
  · unfold runIteration
    simp only [hwake, if_true, Sys.notify]
    split_ifs <;> rfl
  · unfold runIteration
    simp only [hwake, if_true, Sys.notify]
    split_ifs <;> rfl
  · exact List.Nodup.sublist (List.filter_sublist _) (by decide)

/-- Witness for C12: every category desired, the wait reports the error and write-ready
bits; the error callback and then the write callback are invoked. -/
theorem run_dispatch_order_witness :
    (runIteration sampleWaiter).d.notifications
        = sampleWaiter.d.notifications
          ++ dispatchOrder (runIteration sampleWaiter).e.m_currentMask
              (runIteration sampleWaiter).e.m_desiredMask
      ∧ (runIteration sampleWaiter).e.m_currentMask
          = (WaitCommEvent (SetCommMask sampleWaiter.dev sampleWaiter.e.m_desiredMask).2).1.2
      ∧ (runIteration sampleWaiter).e.m_desiredMask = sampleWaiter.e.m_desiredMask
      ∧ (dispatchOrder (runIteration sampleWaiter).e.m_currentMask
          (runIteration sampleWaiter).e.m_desiredMask).Sublist
          [Notification.canErrorNotification, Notification.canReadNotification,
            Notification.canWriteNotification]
      ∧ (dispatchOrder (runIteration sampleWaiter).e.m_currentMask
          (runIteration sampleWaiter).e.m_desiredMask).Nodup :=
  run_dispatch_order sampleWaiter rfl

end Waiter


section CurrentMask

end CurrentMask

section PortNames

theorem qContains_colon_false (name : List Char) (h : ':' ∉ name) :
    qContains name [':'] = false := by
  induction name with
  | nil => rfl
  | cons c cs ih =>
    have hc : c ≠ ':' := fun e => h (by simp [e])
    have hcs : ':' ∉ cs := fun m => h (List.mem_cons_of_mem _ m)
    simp [qContains, List.isPrefixOf, ih hcs, Ne.symm hc]

theorem qContains_append_colon (name : List Char) : qContains (name ++ [':']) [':'] = true := by
  induction name with
  | nil => rfl
  | cons c cs ih => simp [qContains, ih]

theorem qRemoveFrom_append_colon (name : List Char) (h : ':' ∉ name) :
    qRemoveFrom [':'] 0 (name ++ [':']) = name := by
  induction name with
  | nil => rfl
  | cons c cs ih =>
    have hc : c ≠ ':' := fun e => h (by simp [e])
    have hcs : ':' ∉ cs := fun m => h (List.mem_cons_of_mem _ m)
    simp [qRemoveFrom, List.isPrefixOf, ih hcs, Ne.symm hc]

/-- C14. Port-name round trip: for every port name that does not contain the colon,
`portNameToSystemLocation(name)` is the name followed by the colon (so it ends in the
suffix), and `portNameFromSystemLocation` of that location is the name again. -/
theorem port_name_round_trip (name : List Char) (h : ':' ∉ name) :
    portNameToSystemLocation name = name ++ defaultPathPostfix
      ∧ defaultPathPostfix <:+ portNameToSystemLocation name
      ∧ portNameFromSystemLocation (portNameToSystemLocation name) = name := by
  have hto : portNameToSystemLocation name = name ++ defaultPathPostfix := by
    unfold portNameToSystemLocation defaultPathPostfix
    rw [if_pos (qContains_colon_false name h)]
  refine ⟨hto, ?_, ?_⟩
  · rw [hto]
    exact List.suffix_append _ _
  · rw [hto]
    unfold portNameFromSystemLocation defaultPathPostfix qRemove
    rw [if_pos (qContains_append_colon name)]
    exact qRemoveFrom_append_colon name h

/-- Witness for C14: the port name COM3. -/
theorem port_name_round_trip_witness :
    portNameToSystemLocation sampleName = sampleName ++ defaultPathPostfix
      ∧ defaultPathPostfix <:+ portNameToSystemLocation sampleName
      ∧ portNameFromSystemLocation (portNameToSystemLocation sampleName) = sampleName :=
  port_name_round_trip sampleName (by decide)

end PortNames

section Errors

/-- C16. Error translation is total on the last-error code and stays within five kinds:
`ERROR_FILE_NOT_FOUND` gives `NoSuchDeviceError`, `ERROR_ACCESS_DENIED` gives
`PermissionDeniedError`, `ERROR_INVALID_HANDLE` gives `DeviceIsNotOpenedError`,
`ERROR_INVALID_PARAMETER` gives `UnsupportedPortOperationError`, every other code gives
`UnknownPortError`, and no code gives any other kind. -/
theorem decodeSystemError_total (dev : Device) :
    (dev.lastError = ERROR_FILE_NOT_FOUND →
        decodeSystemError dev = PortError.NoSuchDeviceError)
      ∧ (dev.lastError = ERROR_ACCESS_DENIED →
        decodeSystemError dev = PortError.PermissionDeniedError)
      ∧ (dev.lastError = ERROR_INVALID_HANDLE →
        decodeSystemError dev = PortError.DeviceIsNotOpenedError)
      ∧ (dev.lastError = ERROR_INVALID_PARAMETER →
        decodeSystemError dev = PortError.UnsupportedPortOperationError)
      ∧ (dev.lastError ≠ ERROR_FILE_NOT_FOUND → dev.lastError ≠ ERROR_ACCESS_DENIED →
          dev.lastError ≠ ERROR_INVALID_HANDLE → dev.lastError ≠ ERROR_INVALID_PARAMETER →
        decodeSystemError dev = PortError.UnknownPortError)
      ∧ decodeSystemError dev ∈ [PortError.NoSuchDeviceError, PortError.PermissionDeniedError,
          PortError.DeviceIsNotOpenedError, PortError.UnsupportedPortOperationError,
          PortError.UnknownPortError] := by
  unfold decodeSystemError ERROR_FILE_NOT_FOUND ERROR_ACCESS_DENIED ERROR_INVALID_HANDLE
    ERROR_INVALID_PARAMETER
  refine ⟨?_, ?_, ?_, ?_, ?_, ?_⟩
  · intro h; simp [h]
  · intro h; simp [h]
  · intro h; simp [h]
  · intro h; simp [h]
  · intro h1 h2 h3 h4; simp [h1, h2, h3, h4]
  · split_ifs <;> simp

end Errors


section GenuineWake

/-- C17. Result of `select` on a genuine wake: when the forward check does not succeed, the
mask query and the mask extension succeed and the watchdog did not fire, `select` returns
true; if `checkRead`, `selectForRead` is set to (read-ready bit among the event bits the
wait left AND more than 0 bytes in the input queue); if `checkWrite`, `selectForWrite` is set
to (write-ready bit among the event bits); a flag whose category was not requested is not
written. -/
theorem select_genuine_wake (s : Sys) (timeout : Int) (checkRead checkWrite : Bool)
    (old : Nat)
    (hfast : selectFastPath s checkRead = false)
    (hprep : (selectPrepare (selectEntry s checkRead) checkRead checkWrite).1 = some old)
    (hworked : (selectWait (selectPrepare (selectEntry s checkRead) checkRead checkWrite).2
      timeout).1.2 = false) :
    (select s timeout checkRead checkWrite).ret = true
      ∧ (select s timeout checkRead checkWrite).selectForRead
          = (if checkRead then
              some (decide ((selectWait (selectPrepare (selectEntry s checkRead) checkRead
                      checkWrite).2 timeout).1.1 &&& EV_RXCHAR ≠ 0)
                && decide (0 < (bytesAvailable (selectWait (selectPrepare
                      (selectEntry s checkRead) checkRead checkWrite).2 timeout).2).1))
            else none)
      ∧ (select s timeout checkRead checkWrite).selectForWrite
          = (if checkWrite then
              some (decide ((selectWait (selectPrepare (selectEntry s checkRead) checkRead
                      checkWrite).2 timeout).1.1 &&& EV_TXEMPTY ≠ 0))
            else none) := by
  unfold select
  simp only [hfast, hprep, hworked, selectFlags]
  simp

/-- Witness for C17: both categories requested, an empty queue before the wait, a wait
reporting the read-ready and write-ready bits, 2 bytes queued after it. -/
theorem select_genuine_wake_witness :
    (select (sysWith DataErrorPolicy.IgnorePolicy genuineWake) 100 true true).ret = true
      ∧ (select (sysWith DataErrorPolicy.IgnorePolicy genuineWake) 100 true true).selectForRead
          = some true
      ∧ (select (sysWith DataErrorPolicy.IgnorePolicy genuineWake) 100 true true).selectForWrite
          = some true :=
  select_genuine_wake (sysWith DataErrorPolicy.IgnorePolicy genuineWake) 100 true true 0
    rfl rfl rfl

end GenuineWake

section OpenFlow

theorem detectFlow_of_no_xonxoff (dcb : DCB) (hin : dcb.fInX = false) :
    detectFlow dcb = FlowControl.NoFlowControl
      ∨ detectFlow dcb = FlowControl.HardwareControl
      ∨ detectFlow dcb = FlowControl.UnknownFlowControl := by
  unfold detectFlow
  split_ifs <;> simp_all

theorem open_success_state (s : Sys) (location : String) (mode : Nat) :
    (open_ s location mode).1 = true →
      ∃ dcb, (open_ s location mode).2.e.m_currentDcb = openDcb dcb
        ∧ (open_ s location mode).2.d.options.flow = detectFlow (openDcb dcb) := by
  unfold open_
  simp only []
  split
  · intro h; exact absurd h (by simp)
  · split
    · intro h; exact absurd h (by simp)
    · rename_i dcb _
      split
      · intro h; exact absurd h (by simp)
      · split
        · intro h; exact absurd h (by simp)
        · split
          · intro h; exact absurd h (by simp)
          · intro _
            refine ⟨dcb, ?_, ?_⟩
            · rw [detectDefaultSettings_e, updateCommTimeouts_e]
              simp only [updateDcb_e]
            · simp only [detectDefaultSettings, updateCommTimeouts_e, updateDcb_e]

/-- C18. Advertised flow control after open is never software: whatever configuration block
the device reports, if `open` succeeds then the current block has binary mode on and both
XON/XOFF flags (`fInX`, `fOutX`) off, and the flow control advertised through
`detectDefaultSettings` is none, hardware or unknown. -/
theorem open_flow_never_software (s : Sys) (location : String) (mode : Nat)
    (hok : (open_ s location mode).1 = true) :
    (open_ s location mode).2.e.m_currentDcb.fBinary = true
      ∧ (open_ s location mode).2.e.m_currentDcb.fInX = false
      ∧ (open_ s location mode).2.e.m_currentDcb.fOutX = false
      ∧ (open_ s location mode).2.d.options.flow
          = detectFlow (open_ s location mode).2.e.m_currentDcb
      ∧ ((open_ s location mode).2.d.options.flow = FlowControl.NoFlowControl
        ∨ (open_ s location mode).2.d.options.flow = FlowControl.HardwareControl
        ∨ (open_ s location mode).2.d.options.flow = FlowControl.UnknownFlowControl) := by
  obtain ⟨dcb, hcur, hflow⟩ := open_success_state s location mode hok
  rw [hcur, hflow]
  exact ⟨rfl, rfl, rfl, rfl, detectFlow_of_no_xonxoff (openDcb dcb) rfl⟩

/-- Witness for C18: the device was configured for XON/XOFF before `open`; after a
successful `open` the advertised flow control is none. -/
theorem open_flow_never_software_witness :
    (open_ sampleXonXoff samplePort 3).2.e.m_currentDcb.fBinary = true
      ∧ (open_ sampleXonXoff samplePort 3).2.e.m_currentDcb.fInX = false
      ∧ (open_ sampleXonXoff samplePort 3).2.e.m_currentDcb.fOutX = false
      ∧ (open_ sampleXonXoff samplePort 3).2.d.options.flow
          = detectFlow (open_ sampleXonXoff samplePort 3).2.e.m_currentDcb
      ∧ ((open_ sampleXonXoff samplePort 3).2.d.options.flow = FlowControl.NoFlowControl
        ∨ (open_ sampleXonXoff samplePort 3).2.d.options.flow = FlowControl.HardwareControl
        ∨ (open_ sampleXonXoff samplePort 3).2.d.options.flow
            = FlowControl.UnknownFlowControl) :=
  open_flow_never_software sampleXonXoff samplePort 3 rfl

end OpenFlow


section Rates

theorem qFind_le (table : List Int) (value : Int) : qFind table value ≤ table.length := by
  induction table with
  | nil => simp [qFind]
  | cons a rest ih =>
    unfold qFind
    split
    · simp
    · simpa using ih

theorem qFind_eq_length_iff (table : List Int) (value : Int) :
    qFind table value = table.length ↔ value ∉ table := by
  induction table with
  | nil => simp [qFind]
  | cons a rest ih =>
    unfold qFind
    by_cases h : a = value
    · simp [h]
    · simp [h, ih, Ne.symm h]

theorem qFind_getD (table : List Int) (value : Int) (h : value ∈ table) :
    table.getD (qFind table value) 0 = value := by
  induction table with
  | nil => simp at h
  | cons a rest ih =>
    unfold qFind
    by_cases ha : a = value
    · simp [ha]
    · have hr : value ∈ rest := by
        rcases List.mem_cons.mp h with e | m
        · exact absurd e.symm ha
        · exact m
      rw [if_neg ha, List.getD_cons_succ]
      exact ih hr

theorem linear_lookup (table : List Int) (value : Int) :
    (if qFind table value ≠ table.length then table.getD (qFind table value) 0 else 0)
      = if value ∈ table then value else 0 := by
  by_cases h : value ∈ table
  · have hne : qFind table value ≠ table.length := fun e =>
      (qFind_eq_length_iff table value).mp e h
    rw [if_pos hne, if_pos h, qFind_getD table value h]
  · have he : qFind table value = table.length := (qFind_eq_length_iff table value).mpr h
    simp [he, h]

theorem getD_mono (table : List Int) (hs : table.Pairwise (fun a b => a < b)) (i j : Nat)
    (hij : i ≤ j) (hj : j < table.length) : table.getD i 0 ≤ table.getD j 0 := by
  have hi : i < table.length := lt_of_le_of_lt hij hj
  rw [List.getD_eq_getElem _ _ hi, List.getD_eq_getElem _ _ hj]
  rcases Nat.eq_or_lt_of_le hij with e | hlt
  · subst e
    exact le_refl _
  · exact le_of_lt ((List.pairwise_iff_getElem.mp hs) i j hi hj hlt)

theorem qLowerBound_inv (table : List Int) (value : Int)
    (hs : table.Pairwise (fun a b => a < b)) :
    ∀ n b, b + n ≤ table.length →
      (∀ i, i < b → table.getD i 0 < value) →
      (∀ i, b + n ≤ i → i < table.length → value ≤ table.getD i 0) →
      qLowerBound table value b n ≤ table.length
        ∧ (∀ i, i < qLowerBound table value b n → table.getD i 0 < value)
        ∧ (∀ i, qLowerBound table value b n ≤ i → i < table.length →
            value ≤ table.getD i 0) := by
  intro n
  induction n using Nat.strong_induction_on with
  | _ n ih =>
    intro b hb hlow hhigh
    rw [qLowerBound]
    by_cases hn : 0 < n
    · rw [if_pos hn]
      by_cases hmid : table.getD (b + n / 2) 0 < value
      · rw [if_pos hmid]
        apply ih (n - (n / 2 + 1)) (by omega) (b + n / 2 + 1) (by omega)
        · intro i hi
          have hle := getD_mono table hs i (b + n / 2) (by omega) (by omega)
          exact lt_of_le_of_lt hle hmid
        · intro i hi hil
          exact hhigh i (by omega) hil
      · rw [if_neg hmid]
        apply ih (n / 2) (by omega) b (by omega) hlow
        intro i hi hil
        have hle := getD_mono table hs (b + n / 2) i hi hil
        exact le_trans (not_lt.mp hmid) hle
    · rw [if_neg hn]
      have h0 : n = 0 := by omega
      subst h0
      exact ⟨by omega, hlow, fun i hi hil => hhigh i (by omega) hil⟩

theorem binary_lookup (table : List Int) (value : Int)
    (hs : table.Pairwise (fun a b => a < b)) :
    (if qBinaryFind table value ≠ table.length then table.getD (qBinaryFind table value) 0
      else 0)
      = if value ∈ table then value else 0 := by
  obtain ⟨hle, hlow, hhigh⟩ := qLowerBound_inv table value hs table.length 0 (by omega)
    (fun i hi => absurd hi (by omega)) (fun i hi hil => absurd hil (by omega))
  unfold qBinaryFind
  by_cases h : value ∈ table
  · rw [if_pos h]
    obtain ⟨k, hk, hkv⟩ := List.getElem_of_mem h
    have hkd : table.getD k 0 = value := by rw [List.getD_eq_getElem _ _ hk]; exact hkv
    have hrk : qLowerBound table value 0 table.length ≤ k := by
      by_contra hcon
      have := hlow k (by omega)
      rw [hkd] at this
      exact lt_irrefl _ this
    have hrl : qLowerBound table value 0 table.length < table.length := by omega
    have h1 := hhigh _ (le_refl _) hrl
    have h2 := getD_mono table hs _ k hrk hk
    rw [hkd] at h2
    have heq : table.getD (qLowerBound table value 0 table.length) 0 = value :=
      le_antisymm h2 h1
    have hcond : ¬ (qLowerBound table value 0 table.length = table.length
        ∨ value < table.getD (qLowerBound table value 0 table.length) 0) := by
      rw [heq]
      intro hc
      rcases hc with e | l
      · omega
      · exact lt_irrefl _ l
    rw [if_neg hcond, if_pos (by omega), heq]
  · rw [if_neg h]
    have hcond : qLowerBound table value 0 table.length = table.length
        ∨ value < table.getD (qLowerBound table value 0 table.length) 0 := by
      by_cases hr : qLowerBound table value 0 table.length = table.length
      · exact Or.inl hr
      · right
        have hrl : qLowerBound table value 0 table.length < table.length := by omega
        have h1 := hhigh _ (le_refl _) hrl
        rcases lt_or_eq_of_le h1 with l | e
        · exact l
        · exfalso
          apply h
          rw [e, List.getD_eq_getElem _ _ hrl]
          exact List.getElem_mem _
    rw [if_pos hcond]
    simp

theorem standardRatesTable_ascending :
    standardRatesTable.Pairwise (fun a b => a < b) := by
  unfold standardRatesTable
  decide

/-- C15. Standard-rate lookup: the table 110, 300, 600, 1200, 2400, 4800, 9600, 14400, 19200,
38400, 56000, 57600, 115200, 128000, 256000 is strictly ascending, and for every integer `x`
both `rateFromSetting(x)` (linear search) and `settingFromRate(x)` (binary search) return `x`
when `x` is in the table and 0 when it is not, so the two agree on every input. -/
theorem standard_rate_lookup (x : Int) :
    standardRatesTable
        = [110, 300, 600, 1200, 2400, 4800, 9600, 14400, 19200, 38400, 56000, 57600, 115200,
            128000, 256000]
      ∧ standardRatesTable.Pairwise (fun a b => a < b)
      ∧ rateFromSetting x = (if x ∈ standardRatesTable then x else 0)
      ∧ settingFromRate x = (if x ∈ standardRatesTable then x else 0)
      ∧ rateFromSetting x = settingFromRate x := by
  have h1 : rateFromSetting x = (if x ∈ standardRatesTable then x else 0) :=
    linear_lookup standardRatesTable x
  have h2 : settingFromRate x = (if x ∈ standardRatesTable then x else 0) :=
    binary_lookup standardRatesTable x standardRatesTable_ascending
  exact ⟨rfl, standardRatesTable_ascending, h1, h2, h1.trans h2.symm⟩

end Rates

end WinCE
